import Mathlib

/-!
Verification of the Cloud Spanner `DatabaseAdminClient`
(`src/spanner/src/admin/database/database_admin_client.rs`).

The client is a facade over a remote admin RPC service.  Each method
resolves an optional retry setting against a process-wide default, builds a
routing-decorated request inside an attempt closure, and hands that closure
to the external retrying driver `invoke`.  List methods additionally loop,
pushing the returned `next_page_token` back into the request, until a page
arrives with an empty token.  Operation-starting methods wrap the returned
descriptor, together with the shared `lro_client`, in an `Operation` handle.

Modelling decisions:
* The retry-wrapped page fetch (`invoke(retry, action)`) is an oracle
  `invokeO : Option RetrySetting → GrpcRequest R → Except Status P`.  The
  closure built by the client is fully determined by the decorated request
  it sends, so the oracle granularity is faithful.
* The unbounded Rust `loop` is embedded with fuel; `none` is the
  fuel-exhausted (potentially diverging) outcome.
* Every method is instrumented to also return the ordered trace of
  decorated requests it delivered to the transport, so that statements
  about the number of RPCs issued and the shape of each request are
  expressible.
* External collaborators that live in this repository outside the file
  (`google_cloud_gax`, `google_cloud_longrunning`, `crate::admin`) are
  modelled from the spec and marked as such.
-/

namespace SpannerAdmin

/-- A gRPC status error: a numeric code plus a message, as surfaced by the
transport.  The client never inspects or re-codes it. -/
structure Status where
  code : Nat
  message : String
deriving DecidableEq

/-- Modelled from the spec: `google_cloud_gax::retry::RetrySetting`
(not under src/): maximum attempts, backoff base, and the set of
retryable status codes; classification is delegated to this policy. -/
structure RetrySetting where
  take : Nat
  from_millis : Nat
  codes : List Nat
deriving DecidableEq

/-- Modelled from the spec: `crate::admin::default_retry_setting`
(not under src/): the process-wide default retry setting applied when the
caller omits a policy. -/
def default_retry_setting : RetrySetting :=
  { take := 5, from_millis := 50, codes := [2, 4, 14] }

/-- A routing-decorated request: the routing metadata string together with
the request payload. -/
structure GrpcRequest (R : Type) where
  routing : String
  payload : R
deriving DecidableEq

/-- Modelled from the spec: `google_cloud_gax::create_request`
(not under src/): attaches the routing metadata string to the payload;
this is the only place routing metadata is attached. -/
def create_request {R : Type} (routing : String) (payload : R) : GrpcRequest R :=
  { routing := routing, payload := payload }

/-- Modelled from the spec: the shared operation-polling client
(`google_cloud_longrunning::autogen::operations_client::OperationsClient`,
not under src/), an opaque cheaply-cloneable handle. -/
structure OperationsClient where
  id : Nat
deriving DecidableEq

/-- The opaque long-running-operation descriptor returned by the service
(`google_cloud_googleapis::longrunning::Operation`). -/
structure InternalOperation where
  name : String
  done : Bool
deriving DecidableEq

/-- Modelled from the spec: `google_cloud_longrunning::longrunning::Operation<T>`
(not under src/): a typed handle pairing the polling client with the raw
descriptor; it performs no polling itself. -/
structure Operation (T : Type) where
  lro_client : OperationsClient
  inner : InternalOperation
deriving DecidableEq

/-- Modelled from the spec: `Operation::new` stores the polling client and
the descriptor exactly as given. -/
def Operation.new (T : Type) (lro_client : OperationsClient) (inner : InternalOperation) :
    Operation T :=
  { lro_client := lro_client, inner := inner }

/-- The client state: the shared long-running-operation polling client.
The transport channel is abstracted into the invoke oracle. -/
structure DatabaseAdminClient where
  lro_client : OperationsClient
deriving DecidableEq

/- Resource messages (fields limited to those this layer reads). -/

/-- A Cloud Spanner database resource. -/
structure Database where
  name : String
deriving DecidableEq

/-- A Cloud Spanner backup resource. -/
structure Backup where
  name : String
deriving DecidableEq

/-- An IAM policy resource. -/
structure Policy where
  etag : String
deriving DecidableEq

/-- Response of `get_database_ddl`. -/
structure GetDatabaseDdlResponse where
  statements : List String
deriving DecidableEq

/-- Response of `test_iam_permissions`. -/
structure TestIamPermissionsResponse where
  permissions : List String
deriving DecidableEq

/- Request messages. -/

/-- Request of `list_databases`: routing key `parent`, a page size, and the
page token mutated between pages. -/
structure ListDatabasesRequest where
  parent : String
  page_size : Int
  page_token : String
deriving DecidableEq

/-- Response page of `list_databases`. -/
structure ListDatabasesResponse where
  databases : List Database
  next_page_token : String
deriving DecidableEq

/-- Request of `list_backups`. -/
structure ListBackupsRequest where
  parent : String
  filter : String
  page_size : Int
  page_token : String
deriving DecidableEq

/-- Response page of `list_backups`. -/
structure ListBackupsResponse where
  backups : List Backup
  next_page_token : String
deriving DecidableEq

/-- Request of `list_backup_operations`. -/
structure ListBackupOperationsRequest where
  parent : String
  filter : String
  page_size : Int
  page_token : String
deriving DecidableEq

/-- Response page of `list_backup_operations`. -/
structure ListBackupOperationsResponse where
  operations : List InternalOperation
  next_page_token : String
deriving DecidableEq

/-- Request of `list_database_operations`. -/
structure ListDatabaseOperationsRequest where
  parent : String
  filter : String
  page_size : Int
  page_token : String
deriving DecidableEq

/-- Response page of `list_database_operations`. -/
structure ListDatabaseOperationsResponse where
  operations : List InternalOperation
  next_page_token : String
deriving DecidableEq

/-- Request of `create_database`. -/
structure CreateDatabaseRequest where
  parent : String
  create_statement : String
deriving DecidableEq

/-- Request of `get_database`. -/
structure GetDatabaseRequest where
  name : String
deriving DecidableEq

/-- Request of `update_database_ddl`. -/
structure UpdateDatabaseDdlRequest where
  database : String
  statements : List String
deriving DecidableEq

/-- Request of `drop_database`. -/
structure DropDatabaseRequest where
  database : String
deriving DecidableEq

/-- Request of `get_database_ddl`. -/
structure GetDatabaseDdlRequest where
  database : String
deriving DecidableEq

/-- Request of `set_iam_policy`. -/
structure SetIamPolicyRequest where
  resource : String
  policy : Option Policy
deriving DecidableEq

/-- Request of `get_iam_policy`. -/
structure GetIamPolicyRequest where
  resource : String
deriving DecidableEq

/-- Request of `test_iam_permissions`. -/
structure TestIamPermissionsRequest where
  resource : String
  permissions : List String
deriving DecidableEq

/-- Request of `create_backup`. -/
structure CreateBackupRequest where
  parent : String
  backup_id : String
deriving DecidableEq

/-- Request of `get_backup`. -/
structure GetBackupRequest where
  name : String
deriving DecidableEq

/-- Request of `update_backup`: the backup field is optional in the wire
schema; the client unwraps it to extract the routing key. -/
structure UpdateBackupRequest where
  backup : Option Backup
deriving DecidableEq

/-- Request of `delete_backup`. -/
structure DeleteBackupRequest where
  name : String
deriving DecidableEq

/-- Request of `restore_database`. -/
structure RestoreDatabaseRequest where
  parent : String
  database_id : String
deriving DecidableEq

/-- The shared eager-loading pagination loop of the four list methods
(`loop { ... invoke(retry.clone(), action).await?; extend; if empty token
return; req.page_token = token }`), instrumented with the trace of
decorated requests delivered to the transport.  `items`, `token` and
`setTok` are the per-method field accessors (`response.databases`,
`response.next_page_token`, `req.page_token = ...`); `fuel` bounds the
number of loop iterations, `none` meaning the loop would still be running. -/
def pageLoop {R P T : Type} (invokeO : Option RetrySetting → GrpcRequest R → Except Status P)
    (items : P → List T) (token : P → String) (setTok : R → String → R)
    (routing : String) (retry : Option RetrySetting) :
    Nat → R → List T → Option (List (GrpcRequest R) × Except Status (List T))
  | 0, _, _ => none
  | fuel + 1, req, acc =>
    let request := create_request routing req
    match invokeO retry request with
    | Except.error e => some ([request], Except.error e)
    | Except.ok response =>
      let acc2 := acc ++ items response
      if token response = "" then some ([request], Except.ok acc2)
      else
        match pageLoop invokeO items token setTok routing retry fuel
            (setTok req (token response)) acc2 with
        | none => none
        | some (tr, res) => some (request :: tr, res)

/-- `list_databases`: resolves the retry setting against the default,
fixes the routing key from the caller's `parent`, and runs the pagination
loop starting from an empty accumulator. -/
def list_databases
    (invokeO : Option RetrySetting → GrpcRequest ListDatabasesRequest →
      Except Status ListDatabasesResponse)
    (fuel : Nat) (req : ListDatabasesRequest) (retry : Option RetrySetting) :
    Option (List (GrpcRequest ListDatabasesRequest) × Except Status (List Database)) :=
  let retry := some (retry.getD default_retry_setting)
  let parent := req.parent
  pageLoop invokeO ListDatabasesResponse.databases ListDatabasesResponse.next_page_token
    (fun r t => { r with page_token := t }) ("parent=" ++ parent) retry fuel req []

/-- `list_backups`: same loop with the `backups` item field. -/
def list_backups
    (invokeO : Option RetrySetting → GrpcRequest ListBackupsRequest →
      Except Status ListBackupsResponse)
    (fuel : Nat) (req : ListBackupsRequest) (retry : Option RetrySetting) :
    Option (List (GrpcRequest ListBackupsRequest) × Except Status (List Backup)) :=
  let retry := some (retry.getD default_retry_setting)
  let parent := req.parent
  pageLoop invokeO ListBackupsResponse.backups ListBackupsResponse.next_page_token
    (fun r t => { r with page_token := t }) ("parent=" ++ parent) retry fuel req []

/-- `list_backup_operations`: same loop with the `operations` item field. -/
def list_backup_operations
    (invokeO : Option RetrySetting → GrpcRequest ListBackupOperationsRequest →
      Except Status ListBackupOperationsResponse)
    (fuel : Nat) (req : ListBackupOperationsRequest) (retry : Option RetrySetting) :
    Option (List (GrpcRequest ListBackupOperationsRequest) ×
      Except Status (List InternalOperation)) :=
  let retry := some (retry.getD default_retry_setting)
  let parent := req.parent
  pageLoop invokeO ListBackupOperationsResponse.operations
    ListBackupOperationsResponse.next_page_token
    (fun r t => { r with page_token := t }) ("parent=" ++ parent) retry fuel req []

/-- `list_database_operations`: same loop with the `operations` item field. -/
def list_database_operations
    (invokeO : Option RetrySetting → GrpcRequest ListDatabaseOperationsRequest →
      Except Status ListDatabaseOperationsResponse)
    (fuel : Nat) (req : ListDatabaseOperationsRequest) (retry : Option RetrySetting) :
    Option (List (GrpcRequest ListDatabaseOperationsRequest) ×
      Except Status (List InternalOperation)) :=
  let retry := some (retry.getD default_retry_setting)
  let parent := req.parent
  pageLoop invokeO ListDatabaseOperationsResponse.operations
    ListDatabaseOperationsResponse.next_page_token
    (fun r t => { r with page_token := t }) ("parent=" ++ parent) retry fuel req []

/-- `create_database`: one retry-wrapped call routed by `parent`; on success
the returned descriptor is wrapped, together with the shared `lro_client`,
in an `Operation Database` handle.  The second component is the trace of
decorated requests delivered to the transport. -/
def create_database (self : DatabaseAdminClient)
    (invokeO : Option RetrySetting → GrpcRequest CreateDatabaseRequest →
      Except Status InternalOperation)
    (req : CreateDatabaseRequest) (retry : Option RetrySetting) :
    Except Status (Operation Database) × List (GrpcRequest CreateDatabaseRequest) :=
  let retry := some (retry.getD default_retry_setting)
  let parent := req.parent
  let request := create_request ("parent=" ++ parent) req
  ((invokeO retry request).map (fun d => Operation.new Database self.lro_client d), [request])

/-- `get_database`: one retry-wrapped call routed by `name`. -/
def get_database
    (invokeO : Option RetrySetting → GrpcRequest GetDatabaseRequest → Except Status Database)
    (req : GetDatabaseRequest) (retry : Option RetrySetting) :
    Except Status Database × List (GrpcRequest GetDatabaseRequest) :=
  let retry := some (retry.getD default_retry_setting)
  let name := req.name
  let request := create_request ("name=" ++ name) req
  (invokeO retry request, [request])

/-- `update_database_ddl`: one retry-wrapped call routed by `database`; the
operation has no response payload, so the wrapped handle is `Operation Unit`. -/
def update_database_ddl (self : DatabaseAdminClient)
    (invokeO : Option RetrySetting → GrpcRequest UpdateDatabaseDdlRequest →
      Except Status InternalOperation)
    (req : UpdateDatabaseDdlRequest) (retry : Option RetrySetting) :
    Except Status (Operation Unit) × List (GrpcRequest UpdateDatabaseDdlRequest) :=
  let retry := some (retry.getD default_retry_setting)
  let database := req.database
  let request := create_request ("database=" ++ database) req
  ((invokeO retry request).map (fun d => Operation.new Unit self.lro_client d), [request])

/-- `drop_database`: one retry-wrapped call routed by `database`. -/
def drop_database
    (invokeO : Option RetrySetting → GrpcRequest DropDatabaseRequest → Except Status Unit)
    (req : DropDatabaseRequest) (retry : Option RetrySetting) :
    Except Status Unit × List (GrpcRequest DropDatabaseRequest) :=
  let retry := some (retry.getD default_retry_setting)
  let database := req.database
  let request := create_request ("database=" ++ database) req
  (invokeO retry request, [request])

/-- `get_database_ddl`: one retry-wrapped call routed by `database`. -/
def get_database_ddl
    (invokeO : Option RetrySetting → GrpcRequest GetDatabaseDdlRequest →
      Except Status GetDatabaseDdlResponse)
    (req : GetDatabaseDdlRequest) (retry : Option RetrySetting) :
    Except Status GetDatabaseDdlResponse × List (GrpcRequest GetDatabaseDdlRequest) :=
  let retry := some (retry.getD default_retry_setting)
  let database := req.database
  let request := create_request ("database=" ++ database) req
  (invokeO retry request, [request])

/-- `set_iam_policy`: one retry-wrapped call routed by `resource`. -/
def set_iam_policy
    (invokeO : Option RetrySetting → GrpcRequest SetIamPolicyRequest → Except Status Policy)
    (req : SetIamPolicyRequest) (retry : Option RetrySetting) :
    Except Status Policy × List (GrpcRequest SetIamPolicyRequest) :=
  let retry := some (retry.getD default_retry_setting)
  let resource := req.resource
  let request := create_request ("resource=" ++ resource) req
  (invokeO retry request, [request])

/-- `get_iam_policy`: one retry-wrapped call routed by `resource`. -/
def get_iam_policy
    (invokeO : Option RetrySetting → GrpcRequest GetIamPolicyRequest → Except Status Policy)
    (req : GetIamPolicyRequest) (retry : Option RetrySetting) :
    Except Status Policy × List (GrpcRequest GetIamPolicyRequest) :=
  let retry := some (retry.getD default_retry_setting)
  let resource := req.resource
  let request := create_request ("resource=" ++ resource) req
  (invokeO retry request, [request])

/-- `test_iam_permissions`: one retry-wrapped call routed by `resource`. -/
def test_iam_permissions
    (invokeO : Option RetrySetting → GrpcRequest TestIamPermissionsRequest →
      Except Status TestIamPermissionsResponse)
    (req : TestIamPermissionsRequest) (retry : Option RetrySetting) :
    Except Status TestIamPermissionsResponse × List (GrpcRequest TestIamPermissionsRequest) :=
  let retry := some (retry.getD default_retry_setting)
  let resource := req.resource
  let request := create_request ("resource=" ++ resource) req
  (invokeO retry request, [request])

/-- `create_backup`: one retry-wrapped call routed by `parent`; on success
the descriptor is wrapped in an `Operation Backup` handle. -/
def create_backup (self : DatabaseAdminClient)
    (invokeO : Option RetrySetting → GrpcRequest CreateBackupRequest →
      Except Status InternalOperation)
    (req : CreateBackupRequest) (retry : Option RetrySetting) :
    Except Status (Operation Backup) × List (GrpcRequest CreateBackupRequest) :=
  let retry := some (retry.getD default_retry_setting)
  let parent := req.parent
  let request := create_request ("parent=" ++ parent) req
  ((invokeO retry request).map (fun d => Operation.new Backup self.lro_client d), [request])

/-- `get_backup`: one retry-wrapped call routed by `name`. -/
def get_backup
    (invokeO : Option RetrySetting → GrpcRequest GetBackupRequest → Except Status Backup)
    (req : GetBackupRequest) (retry : Option RetrySetting) :
    Except Status Backup × List (GrpcRequest GetBackupRequest) :=
  let retry := some (retry.getD default_retry_setting)
  let name := req.name
  let request := create_request ("name=" ++ name) req
  (invokeO retry request, [request])

/-- `update_backup`: the routing key is extracted by
`req.backup.as_ref().unwrap().name` before any RPC is attempted; the
`unwrap` panics when `req.backup` is `None`, modelled by the outer `Option`
being `none`.  Otherwise one retry-wrapped call routed by `backup.name`. -/
def update_backup
    (invokeO : Option RetrySetting → GrpcRequest UpdateBackupRequest → Except Status Backup)
    (req : UpdateBackupRequest) (retry : Option RetrySetting) :
    Option (Except Status Backup × List (GrpcRequest UpdateBackupRequest)) :=
  let retry := some (retry.getD default_retry_setting)
  match req.backup with
  | none => none
  | some b =>
    let name := b.name
    let request := create_request ("backup.name=" ++ name) req
    some (invokeO retry request, [request])

/-- `delete_backup`: one retry-wrapped call routed by `name`. -/
def delete_backup
    (invokeO : Option RetrySetting → GrpcRequest DeleteBackupRequest → Except Status Unit)
    (req : DeleteBackupRequest) (retry : Option RetrySetting) :
    Except Status Unit × List (GrpcRequest DeleteBackupRequest) :=
  let retry := some (retry.getD default_retry_setting)
  let name := req.name
  let request := create_request ("name=" ++ name) req
  (invokeO retry request, [request])

/-- `restore_database`: one retry-wrapped call routed by `parent`; on
success the descriptor is wrapped in an `Operation Database` handle. -/
def restore_database (self : DatabaseAdminClient)
    (invokeO : Option RetrySetting → GrpcRequest RestoreDatabaseRequest →
      Except Status InternalOperation)
    (req : RestoreDatabaseRequest) (retry : Option RetrySetting) :
    Except Status (Operation Database) × List (GrpcRequest RestoreDatabaseRequest) :=
  let retry := some (retry.getD default_retry_setting)
  let parent := req.parent
  let request := create_request ("parent=" ++ parent) req
  ((invokeO retry request).map (fun d => Operation.new Database self.lro_client d), [request])

/-- Modelled from the spec: the retrying driver
(`google_cloud_gax::retry::invoke`, not under src/), instrumented with the
log of decorated requests the transport receives.  Each attempt re-invokes
the caller's closure, which rebuilds the decorated request fresh (`mkReq`)
and hands it to the transport; a retryable error (code in the policy's
list) with budget remaining triggers another attempt, any other error is
surfaced unchanged, and a success is returned untouched.  `i` is the
attempt index, `budget` the number of retries still allowed. -/
def invokeLog {R A : Type} (setting : RetrySetting)
    (transport : Nat → GrpcRequest R → Except Status A)
    (mkReq : Unit → GrpcRequest R) : Nat → Nat → Except Status A × List (GrpcRequest R)
  | i, 0 =>
    let request := mkReq ()
    (transport i request, [request])
  | i, b + 1 =>
    let request := mkReq ()
    match transport i request with
    | Except.ok v => (Except.ok v, [request])
    | Except.error e =>
      if e.code ∈ setting.codes then
        let rest := invokeLog setting transport mkReq (i + 1) b
        (rest.1, request :: rest.2)
      else (Except.error e, [request])

/-- The attempt closure of `list_databases` (and every other
parent-routed method): rebuilds `create_request("parent=" ++ parent,
req.clone())` on every invocation. -/
def parent_routed_action {R A : Type} (parent : String) (req : R)
    (transport : Nat → GrpcRequest R → Except Status A) : Nat → Except Status A :=
  fun attempt => transport attempt (create_request ("parent=" ++ parent) req)

/-- The attempt closure of the name-routed methods (`get_database`,
`get_backup`, `delete_backup`). -/
def name_routed_action {R A : Type} (name : String) (req : R)
    (transport : Nat → GrpcRequest R → Except Status A) : Nat → Except Status A :=
  fun attempt => transport attempt (create_request ("name=" ++ name) req)

/-- The attempt closure of the database-routed methods
(`update_database_ddl`, `drop_database`, `get_database_ddl`). -/
def database_routed_action {R A : Type} (database : String) (req : R)
    (transport : Nat → GrpcRequest R → Except Status A) : Nat → Except Status A :=
  fun attempt => transport attempt (create_request ("database=" ++ database) req)

/-- The attempt closure of the resource-routed IAM methods. -/
def resource_routed_action {R A : Type} (resource : String) (req : R)
    (transport : Nat → GrpcRequest R → Except Status A) : Nat → Except Status A :=
  fun attempt => transport attempt (create_request ("resource=" ++ resource) req)

/-- The attempt closure of `update_backup`, routed by the unwrapped
backup's name. -/
def backup_name_routed_action {R A : Type} (name : String) (req : R)
    (transport : Nat → GrpcRequest R → Except Status A) : Nat → Except Status A :=
  fun attempt => transport attempt (create_request ("backup.name=" ++ name) req)

/-- The retry setting every method resolves before its first call:
`Some(retry.unwrap_or_else(default_retry_setting))`. -/
def resolved_retry (retry : Option RetrySetting) : Option RetrySetting :=
  some (retry.getD default_retry_setting)

/-- The item sequence of the page the oracle returns for a decorated
request (`[]` when the fetch fails). -/
def fetchItems {R P T : Type}
    (invokeO : Option RetrySetting → GrpcRequest R → Except Status P)
    (items : P → List T) (retry : Option RetrySetting) (q : GrpcRequest R) : List T :=
  match invokeO retry q with
  | Except.ok p => items p
  | Except.error _ => []

/-- Whether the response chain starting from `req` reaches an error or a
page with an empty continuation token within `n` fetches. -/
def stopsWithin {R P : Type} (fetch : R → Except Status P) (token : P → String)
    (setTok : R → String → R) : Nat → R → Bool
  | 0, _ => false
  | n + 1, req =>
    match fetch req with
    | Except.error _ => true
    | Except.ok resp =>
      if token resp = "" then true
      else stopsWithin fetch token setTok n (setTok req (token resp))

/-- Reachability from a request by repeatedly overwriting the page-token
field. -/
inductive TokReach {R : Type} (setTok : R → String → R) : R → R → Prop
  | refl (r : R) : TokReach setTok r r
  | step (r s : R) (t : String) : TokReach setTok r s → TokReach setTok r (setTok s t)

/-- Modelled from the spec: the result of the retrying driver
(`google_cloud_gax::retry::invoke`, not under src/) on an attempt closure:
re-attempt on a retryable error while budget remains, otherwise surface
the final error unchanged; return a success untouched. -/
def invoke_result {A : Type} (setting : RetrySetting) (action : Nat → Except Status A) :
    Nat → Nat → Except Status A
  | i, 0 => action i
  | i, b + 1 =>
    match action i with
    | Except.ok v => Except.ok v
    | Except.error e =>
      if e.code ∈ setting.codes then invoke_result setting action (i + 1) b
      else Except.error e

/-- The continuation token of the page the oracle returns for a decorated
request (`none` when the fetch fails). -/
def fetchToken {R P : Type}
    (invokeO : Option RetrySetting → GrpcRequest R → Except Status P)
    (token : P → String) (retry : Option RetrySetting) (q : GrpcRequest R) : Option String :=
  match invokeO retry q with
  | Except.ok p => some (token p)
  | Except.error _ => none

/- Concrete fixtures used by the witnesses. -/

/-- A concrete non-retryable status. -/
def stErr : Status := { code := 13, message := "internal" }

/-- A concrete database resource. -/
def dbA : Database := { name := "dbA" }

/-- A concrete database resource. -/
def dbB : Database := { name := "dbB" }

/-- A concrete database resource. -/
def dbC : Database := { name := "dbC" }

/-- A concrete backup resource. -/
def bkA : Backup := { name := "bkA" }

/-- A concrete backup resource. -/
def bkB : Backup := { name := "bkB" }

/-- A concrete operation descriptor. -/
def opA : InternalOperation := { name := "opA", done := false }

/-- A concrete operation descriptor. -/
def opB : InternalOperation := { name := "opB", done := true }

/-- A concrete `list_databases` request. -/
def ldReq : ListDatabasesRequest :=
  { parent := "projects/p/instances/i", page_size := 10, page_token := "" }

/-- A two-page `list_databases` oracle: `[dbA, dbB]` with token `T`, then
`[dbC]` with an empty token. -/
def ldSrv : Option RetrySetting → GrpcRequest ListDatabasesRequest →
    Except Status ListDatabasesResponse :=
  fun _ q =>
    if q.payload.page_token = "" then
      Except.ok { databases := [dbA, dbB], next_page_token := "T" }
    else Except.ok { databases := [dbC], next_page_token := "" }

/-- The trace `ldSrv` induces on `ldReq`. -/
def ldTrace : List (GrpcRequest ListDatabasesRequest) :=
  [create_request ("parent=" ++ ldReq.parent) ldReq,
   create_request ("parent=" ++ ldReq.parent) { ldReq with page_token := "T" }]

/-- A `list_databases` oracle whose second page fails. -/
def ldSrvErr2 : Option RetrySetting → GrpcRequest ListDatabasesRequest →
    Except Status ListDatabasesResponse :=
  fun _ q =>
    if q.payload.page_token = "" then
      Except.ok { databases := [dbA, dbB], next_page_token := "T" }
    else Except.error stErr

/-- A `list_databases` oracle that always fails. -/
def ldSrvErrAll : Option RetrySetting → GrpcRequest ListDatabasesRequest →
    Except Status ListDatabasesResponse :=
  fun _ _ => Except.error stErr

/-- A `list_databases` oracle whose first page is empty with a non-empty
token, followed by `[dbC]` with an empty token. -/
def ldSrvEmptyFirst : Option RetrySetting → GrpcRequest ListDatabasesRequest →
    Except Status ListDatabasesResponse :=
  fun _ q =>
    if q.payload.page_token = "" then
      Except.ok { databases := [], next_page_token := "T" }
    else Except.ok { databases := [dbC], next_page_token := "" }

/-- A single-page `list_databases` oracle. -/
def ldSrvSingle : Option RetrySetting → GrpcRequest ListDatabasesRequest →
    Except Status ListDatabasesResponse :=
  fun _ _ => Except.ok { databases := [dbA], next_page_token := "" }

/-- A concrete `list_backups` request. -/
def lbReq : ListBackupsRequest :=
  { parent := "projects/p/instances/i", filter := "", page_size := 5, page_token := "" }

/-- A two-page `list_backups` oracle. -/
def lbSrv : Option RetrySetting → GrpcRequest ListBackupsRequest →
    Except Status ListBackupsResponse :=
  fun _ q =>
    if q.payload.page_token = "" then
      Except.ok { backups := [bkA], next_page_token := "U" }
    else Except.ok { backups := [bkB], next_page_token := "" }

/-- The trace `lbSrv` induces on `lbReq`. -/
def lbTrace : List (GrpcRequest ListBackupsRequest) :=
  [create_request ("parent=" ++ lbReq.parent) lbReq,
   create_request ("parent=" ++ lbReq.parent) { lbReq with page_token := "U" }]

/-- A concrete `list_backup_operations` request. -/
def lboReq : ListBackupOperationsRequest :=
  { parent := "projects/p/instances/i", filter := "", page_size := 5, page_token := "" }

/-- A two-page `list_backup_operations` oracle. -/
def lboSrv : Option RetrySetting → GrpcRequest ListBackupOperationsRequest →
    Except Status ListBackupOperationsResponse :=
  fun _ q =>
    if q.payload.page_token = "" then
      Except.ok { operations := [opA], next_page_token := "V" }
    else Except.ok { operations := [opB], next_page_token := "" }

/-- The trace `lboSrv` induces on `lboReq`. -/
def lboTrace : List (GrpcRequest ListBackupOperationsRequest) :=
  [create_request ("parent=" ++ lboReq.parent) lboReq,
   create_request ("parent=" ++ lboReq.parent) { lboReq with page_token := "V" }]

/-- A concrete `list_database_operations` request. -/
def ldoReq : ListDatabaseOperationsRequest :=
  { parent := "projects/p/instances/i", filter := "", page_size := 5, page_token := "" }

/-- A two-page `list_database_operations` oracle. -/
def ldoSrv : Option RetrySetting → GrpcRequest ListDatabaseOperationsRequest →
    Except Status ListDatabaseOperationsResponse :=
  fun _ q =>
    if q.payload.page_token = "" then
      Except.ok { operations := [opA], next_page_token := "W" }
    else Except.ok { operations := [opB], next_page_token := "" }

/-- The trace `ldoSrv` induces on `ldoReq`. -/
def ldoTrace : List (GrpcRequest ListDatabaseOperationsRequest) :=
  [create_request ("parent=" ++ ldoReq.parent) ldoReq,
   create_request ("parent=" ++ ldoReq.parent) { ldoReq with page_token := "W" }]

/-- A concrete client. -/
def client0 : DatabaseAdminClient := { lro_client := { id := 7 } }

/-- A concrete `create_database` request. -/
def cdReq : CreateDatabaseRequest :=
  { parent := "projects/p/instances/i", create_statement := "CREATE DATABASE d" }

/-- An oracle that starts an operation successfully. -/
def cdSrv : Option RetrySetting → GrpcRequest CreateDatabaseRequest →
    Except Status InternalOperation :=
  fun _ _ => Except.ok opA

/-- A concrete `get_database` request. -/
def gdReq : GetDatabaseRequest := { name := "projects/p/instances/i/databases/d" }

/-- A transport that fails once with a retryable status and then
succeeds, for exercising the per-attempt closure. -/
def gdTransport : Nat → GrpcRequest GetDatabaseRequest → Except Status Database :=
  fun i q =>
    if i = 0 then Except.error { code := 14, message := "unavailable" }
    else Except.ok { name := q.payload.name }

/-- Flattening lists of a common length `k` multiplies the count by `k`. -/
theorem flatten_length_const {A B : Type} (f : A → List B) (l : List A) (k : Nat)
    (h : ∀ x ∈ l, (f x).length = k) : ((l.map f).flatten).length = l.length * k := by
  induction l with
  | nil => simp
  | cons a l ih =>
    simp only [List.map_cons, List.flatten_cons, List.length_append, List.length_cons]
    rw [h a (List.mem_cons_self a l), ih (fun x hx => h x (List.mem_cons_of_mem a hx))]
    ring

/-- `TokReach` is transitive. -/
theorem tokReach_trans {R : Type} (setTok : R → String → R) (a b c : R)
    (h2 : TokReach setTok b c) : TokReach setTok a b → TokReach setTok a c := by
  induction h2 with
  | refl => exact fun h1 => h1
  | step s t hrs ih => exact fun h1 => TokReach.step a s t (ih h1)

section PageLoopLemmas

variable {R P T : Type}
  (invokeO : Option RetrySetting → GrpcRequest R → Except Status P)
  (items : P → List T) (token : P → String) (setTok : R → String → R)
  (routing : String) (retry : Option RetrySetting)

/-- A successful page collection is the accumulator followed by the
concatenation, in trace order, of the item sequences of the fetched
pages. -/
theorem pageLoop_ok_concat :
    ∀ (fuel : Nat) (req : R) (acc : List T) (tr : List (GrpcRequest R)) (v : List T),
    pageLoop invokeO items token setTok routing retry fuel req acc =
      some (tr, Except.ok v) →
    v = acc ++ (tr.map (fetchItems invokeO items retry)).flatten := by
  intro fuel
  induction fuel with
  | zero => intro req acc tr v h; simp [pageLoop] at h
  | succ fuel ih =>
    intro req acc tr v h
    rw [pageLoop] at h
    cases hq : invokeO retry (create_request routing req) with
    | error e => rw [hq] at h; simp at h
    | ok resp =>
      rw [hq] at h
      simp only at h
      by_cases ht : token resp = ""
      · rw [if_pos ht] at h
        obtain ⟨htr, hv⟩ := Prod.mk.injEq .. ▸ (Option.some.injEq .. ▸ h)
        subst htr
        cases hv
        simp [fetchItems, hq]
      · rw [if_neg ht] at h
        cases hrec : pageLoop invokeO items token setTok routing retry fuel
            (setTok req (token resp)) (acc ++ items resp) with
        | none => rw [hrec] at h; simp at h
        | some p =>
          obtain ⟨tr1, res1⟩ := p
          rw [hrec] at h
          simp only [Option.some.injEq, Prod.mk.injEq] at h
          obtain ⟨htr, hres⟩ := h
          subst htr
          cases hres
          have := ih (setTok req (token resp)) (acc ++ items resp) tr1 v hrec
          simp [this, fetchItems, hq, List.append_assoc]

/-- A failing fetch aborts the loop at once: the failing call's error is
returned verbatim and the accumulator is discarded (the outcome does not
depend on `acc`). -/
theorem pageLoop_error_step (fuel : Nat) (req : R) (acc : List T) (e : Status)
    (hq : invokeO retry (create_request routing req) = Except.error e) :
    pageLoop invokeO items token setTok routing retry (fuel + 1) req acc =
      some ([create_request routing req], Except.error e) := by
  rw [pageLoop, hq]

/-- When the loop ends with an error, that error is exactly the oracle's
error on the last traced request. -/
theorem pageLoop_error_last :
    ∀ (fuel : Nat) (req : R) (acc : List T) (tr : List (GrpcRequest R)) (e : Status),
    pageLoop invokeO items token setTok routing retry fuel req acc =
      some (tr, Except.error e) →
    ∃ q, tr.getLast? = some q ∧ invokeO retry q = Except.error e := by
  intro fuel
  induction fuel with
  | zero => intro req acc tr e h; simp [pageLoop] at h
  | succ fuel ih =>
    intro req acc tr e h
    rw [pageLoop] at h
    cases hq : invokeO retry (create_request routing req) with
    | error e9 =>
      rw [hq] at h
      simp only [Option.some.injEq, Prod.mk.injEq, Except.error.injEq] at h
      obtain ⟨htr, he⟩ := h
      subst htr; subst he
      exact ⟨create_request routing req, rfl, hq⟩
    | ok resp =>
      rw [hq] at h
      simp only at h
      by_cases ht : token resp = ""
      · rw [if_pos ht] at h; simp at h
      · rw [if_neg ht] at h
        cases hrec : pageLoop invokeO items token setTok routing retry fuel
            (setTok req (token resp)) (acc ++ items resp) with
        | none => rw [hrec] at h; simp at h
        | some p =>
          obtain ⟨tr1, res1⟩ := p
          rw [hrec] at h
          simp only [Option.some.injEq, Prod.mk.injEq] at h
          obtain ⟨htr, hres⟩ := h
          subst htr; subst hres
          obtain ⟨q, hqlast, hqe⟩ := ih (setTok req (token resp)) (acc ++ items resp) tr1 e hrec
          refine ⟨q, ?_, hqe⟩
          cases tr1 with
          | nil => simp at hqlast
          | cons a l => simpa using hqlast

/-- A successful fetch with a non-empty continuation token never ends the
loop: the loop recurses on the request with the page-token field set to
the returned token, regardless of how many items the page held. -/
theorem pageLoop_cont (fuel : Nat) (req : R) (acc : List T) (resp : P)
    (hq : invokeO retry (create_request routing req) = Except.ok resp)
    (ht : token resp ≠ "") :
    pageLoop invokeO items token setTok routing retry (fuel + 1) req acc =
      (pageLoop invokeO items token setTok routing retry fuel
        (setTok req (token resp)) (acc ++ items resp)).map
        (fun p => (create_request routing req :: p.1, p.2)) := by
  rw [pageLoop, hq]
  simp only [if_neg ht]
  cases pageLoop invokeO items token setTok routing retry fuel
      (setTok req (token resp)) (acc ++ items resp) with
  | none => rfl
  | some p => cases p; rfl

/-- A successful fetch with an empty continuation token ends the loop at
once with the extended accumulator and a single traced request. -/
theorem pageLoop_last_page (fuel : Nat) (req : R) (acc : List T) (resp : P)
    (hq : invokeO retry (create_request routing req) = Except.ok resp)
    (ht : token resp = "") :
    pageLoop invokeO items token setTok routing retry (fuel + 1) req acc =
      some ([create_request routing req], Except.ok (acc ++ items resp)) := by
  rw [pageLoop, hq]
  simp [ht]

/-- The loop yields a result under fuel `n` exactly when the response
chain reaches an error or an empty continuation token within `n`
fetches; the accumulator is irrelevant to termination. -/
theorem pageLoop_isSome_eq_stopsWithin :
    ∀ (fuel : Nat) (req : R) (acc : List T),
    (pageLoop invokeO items token setTok routing retry fuel req acc).isSome =
      stopsWithin (fun r => invokeO retry (create_request routing r)) token setTok fuel req := by
  intro fuel
  induction fuel with
  | zero => intro req acc; simp [pageLoop, stopsWithin]
  | succ fuel ih =>
    intro req acc
    rw [pageLoop, stopsWithin]
    cases hq : invokeO retry (create_request routing req) with
    | error e => simp
    | ok resp =>
      simp only
      by_cases ht : token resp = ""
      · simp [ht]
      · rw [if_neg ht, if_neg ht]
        rw [← ih (setTok req (token resp)) (acc ++ items resp)]
        cases pageLoop invokeO items token setTok routing retry fuel
            (setTok req (token resp)) (acc ++ items resp) with
        | none => rfl
        | some p => cases p; rfl

/-- When the loop succeeds, the last traced request fetched a page whose
continuation token is empty: the empty token is the only terminal success
condition. -/
theorem pageLoop_ok_last :
    ∀ (fuel : Nat) (req : R) (acc : List T) (tr : List (GrpcRequest R)) (v : List T),
    pageLoop invokeO items token setTok routing retry fuel req acc =
      some (tr, Except.ok v) →
    ∃ q resp, tr.getLast? = some q ∧ invokeO retry q = Except.ok resp ∧ token resp = "" := by
  intro fuel
  induction fuel with
  | zero => intro req acc tr v h; simp [pageLoop] at h
  | succ fuel ih =>
    intro req acc tr v h
    rw [pageLoop] at h
    cases hq : invokeO retry (create_request routing req) with
    | error e => rw [hq] at h; simp at h
    | ok resp =>
      rw [hq] at h
      simp only at h
      by_cases ht : token resp = ""
      · rw [if_pos ht] at h
        simp only [Option.some.injEq, Prod.mk.injEq] at h
        obtain ⟨htr, _⟩ := h
        subst htr
        exact ⟨create_request routing req, resp, rfl, hq, ht⟩
      · rw [if_neg ht] at h
        cases hrec : pageLoop invokeO items token setTok routing retry fuel
            (setTok req (token resp)) (acc ++ items resp) with
        | none => rw [hrec] at h; simp at h
        | some p =>
          obtain ⟨tr1, res1⟩ := p
          rw [hrec] at h
          simp only [Option.some.injEq, Prod.mk.injEq] at h
          obtain ⟨htr, hres⟩ := h
          subst htr; subst hres
          obtain ⟨q, r9, hqlast, hqok, hqt⟩ :=
            ih (setTok req (token resp)) (acc ++ items resp) tr1 v hrec
          refine ⟨q, r9, ?_, hqok, hqt⟩
          cases tr1 with
          | nil => simp at hqlast
          | cons a l => simpa using hqlast

/-- The first traced request is always the decoration of the initial
request. -/
theorem pageLoop_trace_head :
    ∀ (fuel : Nat) (req : R) (acc : List T) (tr : List (GrpcRequest R))
      (res : Except Status (List T)),
    pageLoop invokeO items token setTok routing retry fuel req acc = some (tr, res) →
    tr.head? = some (create_request routing req) := by
  intro fuel
  cases fuel with
  | zero => intro req acc tr res h; simp [pageLoop] at h
  | succ fuel =>
    intro req acc tr res h
    rw [pageLoop] at h
    cases hq : invokeO retry (create_request routing req) with
    | error e =>
      rw [hq] at h
      simp only [Option.some.injEq, Prod.mk.injEq] at h
      obtain ⟨htr, _⟩ := h
      subst htr; rfl
    | ok resp =>
      rw [hq] at h
      simp only at h
      by_cases ht : token resp = ""
      · rw [if_pos ht] at h
        simp only [Option.some.injEq, Prod.mk.injEq] at h
        obtain ⟨htr, _⟩ := h
        subst htr; rfl
      · rw [if_neg ht] at h
        cases hrec : pageLoop invokeO items token setTok routing retry fuel
            (setTok req (token resp)) (acc ++ items resp) with
        | none => rw [hrec] at h; simp at h
        | some p =>
          obtain ⟨tr1, res1⟩ := p
          rw [hrec] at h
          simp only [Option.some.injEq, Prod.mk.injEq] at h
          obtain ⟨htr, _⟩ := h
          subst htr; rfl

/-- Every traced request carries the routing string fixed before the loop
and a payload reachable from the caller's request by page-token updates
alone. -/
theorem pageLoop_trace_shape :
    ∀ (fuel : Nat) (req : R) (acc : List T) (tr : List (GrpcRequest R))
      (res : Except Status (List T)),
    pageLoop invokeO items token setTok routing retry fuel req acc = some (tr, res) →
    ∀ q ∈ tr, q.routing = routing ∧ TokReach setTok req q.payload := by
  intro fuel
  induction fuel with
  | zero => intro req acc tr res h; simp [pageLoop] at h
  | succ fuel ih =>
    intro req acc tr res h
    rw [pageLoop] at h
    cases hq : invokeO retry (create_request routing req) with
    | error e =>
      rw [hq] at h
      simp only [Option.some.injEq, Prod.mk.injEq] at h
      obtain ⟨htr, _⟩ := h
      subst htr
      intro q hqmem
      simp only [List.mem_singleton] at hqmem
      subst hqmem
      exact ⟨rfl, TokReach.refl req⟩
    | ok resp =>
      rw [hq] at h
      simp only at h
      by_cases ht : token resp = ""
      · rw [if_pos ht] at h
        simp only [Option.some.injEq, Prod.mk.injEq] at h
        obtain ⟨htr, _⟩ := h
        subst htr
        intro q hqmem
        simp only [List.mem_singleton] at hqmem
        subst hqmem
        exact ⟨rfl, TokReach.refl req⟩
      · rw [if_neg ht] at h
        cases hrec : pageLoop invokeO items token setTok routing retry fuel
            (setTok req (token resp)) (acc ++ items resp) with
        | none => rw [hrec] at h; simp at h
        | some p =>
          obtain ⟨tr1, res1⟩ := p
          rw [hrec] at h
          simp only [Option.some.injEq, Prod.mk.injEq] at h
          obtain ⟨htr, _⟩ := h
          subst htr
          intro q hqmem
          rcases List.mem_cons.mp hqmem with hqeq | hqin
          · subst hqeq; exact ⟨rfl, TokReach.refl req⟩
          · obtain ⟨hr, hreach⟩ := ih (setTok req (token resp)) (acc ++ items resp) tr1 res1 hrec q hqin
            refine ⟨hr, ?_⟩
            have base : TokReach setTok req (setTok req (token resp)) :=
              TokReach.step req req (token resp) (TokReach.refl req)
            exact tokReach_trans setTok req (setTok req (token resp)) q.payload hreach base

/-- Consecutive traced requests are linked by the server: each next
request is the previous payload with only its page-token field overwritten
by the previous response's continuation token. -/
theorem pageLoop_chain :
    ∀ (fuel : Nat) (req : R) (acc : List T) (tr : List (GrpcRequest R))
      (res : Except Status (List T)),
    pageLoop invokeO items token setTok routing retry fuel req acc = some (tr, res) →
    tr.Chain' (fun a b => ∃ resp, invokeO retry a = Except.ok resp ∧ token resp ≠ "" ∧
      b = create_request routing (setTok a.payload (token resp))) := by
  intro fuel
  induction fuel with
  | zero => intro req acc tr res h; simp [pageLoop] at h
  | succ fuel ih =>
    intro req acc tr res h
    rw [pageLoop] at h
    cases hq : invokeO retry (create_request routing req) with
    | error e =>
      rw [hq] at h
      simp only [Option.some.injEq, Prod.mk.injEq] at h
      obtain ⟨htr, _⟩ := h
      subst htr
      simp
    | ok resp =>
      rw [hq] at h
      simp only at h
      by_cases ht : token resp = ""
      · rw [if_pos ht] at h
        simp only [Option.some.injEq, Prod.mk.injEq] at h
        obtain ⟨htr, _⟩ := h
        subst htr
        simp
      · rw [if_neg ht] at h
        cases hrec : pageLoop invokeO items token setTok routing retry fuel
            (setTok req (token resp)) (acc ++ items resp) with
        | none => rw [hrec] at h; simp at h
        | some p =>
          obtain ⟨tr1, res1⟩ := p
          rw [hrec] at h
          simp only [Option.some.injEq, Prod.mk.injEq] at h
          obtain ⟨htr, _⟩ := h
          subst htr
          have htail := ih (setTok req (token resp)) (acc ++ items resp) tr1 res1 hrec
          have hhead := pageLoop_trace_head invokeO items token setTok routing retry fuel
            (setTok req (token resp)) (acc ++ items resp) tr1 res1 hrec
          refine List.chain'_cons'.mpr ⟨?_, htail⟩
          intro b hb
          rw [hhead] at hb
          cases hb
          exact ⟨resp, hq, ht, rfl⟩

/-- Specialization of `pageLoop_ok_concat` to the empty accumulator, with
the N·k count corollary: N pages of size k yield exactly N·k items. -/
theorem pageLoop_ok_concat_nil (fuel : Nat) (req : R) (tr : List (GrpcRequest R)) (v : List T)
    (h : pageLoop invokeO items token setTok routing retry fuel req [] =
      some (tr, Except.ok v)) :
    v = (tr.map (fetchItems invokeO items retry)).flatten ∧
    ∀ k : Nat, (∀ q ∈ tr, (fetchItems invokeO items retry q).length = k) →
      v.length = tr.length * k := by
  have h1 := pageLoop_ok_concat invokeO items token setTok routing retry fuel req [] tr v h
  simp only [List.nil_append] at h1
  refine ⟨h1, ?_⟩
  intro k hk
  rw [h1, flatten_length_const (fetchItems invokeO items retry) tr k hk]

/-- A zero-item page with a non-empty token continues the loop with the
updated token, and when a result is produced the second traced request
carries exactly that token. -/
theorem pageLoop_zero_items_continues (fuel : Nat) (req : R) (resp : P)
    (hq : invokeO retry (create_request routing req) = Except.ok resp)
    (hi : items resp = []) (ht : token resp ≠ "") :
    pageLoop invokeO items token setTok routing retry (fuel + 1) req [] =
      (pageLoop invokeO items token setTok routing retry fuel (setTok req (token resp)) []).map
        (fun p => (create_request routing req :: p.1, p.2)) ∧
    ∀ tr res,
      pageLoop invokeO items token setTok routing retry (fuel + 1) req [] = some (tr, res) →
      tr.take 2 =
        [create_request routing req, create_request routing (setTok req (token resp))] := by
  have hcont := pageLoop_cont invokeO items token setTok routing retry fuel req [] resp hq ht
  rw [hi] at hcont
  simp only [List.append_nil] at hcont
  refine ⟨hcont, ?_⟩
  intro tr res h
  rw [hcont] at h
  cases hrec : pageLoop invokeO items token setTok routing retry fuel
      (setTok req (token resp)) [] with
  | none => rw [hrec] at h; simp at h
  | some p =>
    obtain ⟨tr1, res1⟩ := p
    rw [hrec] at h
    simp only [Option.map_some', Option.some.injEq, Prod.mk.injEq] at h
    obtain ⟨htr, _⟩ := h
    subst htr
    have hhead := pageLoop_trace_head invokeO items token setTok routing retry fuel
      (setTok req (token resp)) [] tr1 res1 hrec
    cases tr1 with
    | nil => simp at hhead
    | cons a l =>
      simp only [List.head?_cons, Option.some.injEq] at hhead
      subst hhead
      rfl

end PageLoopLemmas

/-- Page-token updates leave every other `ListDatabasesRequest` field
unchanged. -/
theorem tokReach_listDatabases (req r : ListDatabasesRequest)
    (h : TokReach (fun r t => { r with page_token := t }) req r) :
    r.parent = req.parent ∧ r.page_size = req.page_size := by
  induction h with
  | refl => exact ⟨rfl, rfl⟩
  | step s t hrs ih => exact ih

/-- Page-token updates leave every other `ListBackupsRequest` field
unchanged. -/
theorem tokReach_listBackups (req r : ListBackupsRequest)
    (h : TokReach (fun r t => { r with page_token := t }) req r) :
    r.parent = req.parent ∧ r.filter = req.filter ∧ r.page_size = req.page_size := by
  induction h with
  | refl => exact ⟨rfl, rfl, rfl⟩
  | step s t hrs ih => exact ih

/-- Page-token updates leave every other `ListBackupOperationsRequest`
field unchanged. -/
theorem tokReach_listBackupOperations (req r : ListBackupOperationsRequest)
    (h : TokReach (fun r t => { r with page_token := t }) req r) :
    r.parent = req.parent ∧ r.filter = req.filter ∧ r.page_size = req.page_size := by
  induction h with
  | refl => exact ⟨rfl, rfl, rfl⟩
  | step s t hrs ih => exact ih

/-- Page-token updates leave every other `ListDatabaseOperationsRequest`
field unchanged. -/
theorem tokReach_listDatabaseOperations (req r : ListDatabaseOperationsRequest)
    (h : TokReach (fun r t => { r with page_token := t }) req r) :
    r.parent = req.parent ∧ r.filter = req.filter ∧ r.page_size = req.page_size := by
  induction h with
  | refl => exact ⟨rfl, rfl, rfl⟩
  | step s t hrs ih => exact ih

/-- Every request the transport receives from the instrumented retrying
driver is the decorated request the attempt closure freshly rebuilds. -/
theorem invokeLog_mem_const {R A : Type} (setting : RetrySetting)
    (transport : Nat → GrpcRequest R → Except Status A) (c : GrpcRequest R) :
    ∀ (budget i : Nat), ∀ q ∈ (invokeLog setting transport (fun _ => c) i budget).2, q = c := by
  intro budget
  induction budget with
  | zero =>
    intro i q hq
    simp only [invokeLog, List.mem_singleton] at hq
    exact hq
  | succ b ih =>
    intro i q hq
    cases htr : transport i c with
    | ok v =>
      simp only [invokeLog, htr, List.mem_singleton] at hq
      exact hq
    | error e =>
      by_cases hc : e.code ∈ setting.codes
      · simp only [invokeLog, htr, hc, if_true, List.mem_cons] at hq
        rcases hq with hq | hq
        · exact hq
        · exact ih (i + 1) q hq
      · simp only [invokeLog, htr, hc, if_false, List.mem_singleton] at hq
        exact hq

/-- The instrumented retrying driver computes the same final result as
the plain driver applied to the method's attempt closure. -/
theorem invokeLog_fst_eq {R A : Type} (setting : RetrySetting)
    (transport : Nat → GrpcRequest R → Except Status A) (c : GrpcRequest R) :
    ∀ (budget i : Nat),
    (invokeLog setting transport (fun _ => c) i budget).1 =
      invoke_result setting (fun attempt => transport attempt c) i budget := by
  intro budget
  induction budget with
  | zero =>
    intro i
    simp only [invokeLog, invoke_result]
  | succ b ih =>
    intro i
    cases htr : transport i c with
    | ok v => simp only [invokeLog, invoke_result, htr]
    | error e =>
      by_cases hc : e.code ∈ setting.codes
      · simp only [invokeLog, invoke_result, htr, hc, if_true]
        exact ih (i + 1)
      · simp only [invokeLog, invoke_result, htr, hc, if_false]

/-- C1: for every list method (list_databases, list_backups,
list_backup_operations, list_database_operations) and every sequence of
successful page responses ending in a page with an empty next_page_token,
the returned Ok vector is exactly the concatenation of the per-page item
sequences in the order the pages were received, with no duplication,
omission, or reordering; in particular, for N pages each of size k it has
exactly N·k items. -/
theorem c1_list_methods_concatenate_pages :
    (∀ (invokeO : Option RetrySetting → GrpcRequest ListDatabasesRequest →
        Except Status ListDatabasesResponse)
      (fuel : Nat) (req : ListDatabasesRequest) (retry : Option RetrySetting)
      (tr : List (GrpcRequest ListDatabasesRequest)) (v : List Database),
      list_databases invokeO fuel req retry = some (tr, Except.ok v) →
      v = (tr.map (fetchItems invokeO ListDatabasesResponse.databases
        (resolved_retry retry))).flatten ∧
      ∀ k : Nat,
        (∀ q ∈ tr, (fetchItems invokeO ListDatabasesResponse.databases
          (resolved_retry retry) q).length = k) →
        v.length = tr.length * k) ∧
    (∀ (invokeO : Option RetrySetting → GrpcRequest ListBackupsRequest →
        Except Status ListBackupsResponse)
      (fuel : Nat) (req : ListBackupsRequest) (retry : Option RetrySetting)
      (tr : List (GrpcRequest ListBackupsRequest)) (v : List Backup),
      list_backups invokeO fuel req retry = some (tr, Except.ok v) →
      v = (tr.map (fetchItems invokeO ListBackupsResponse.backups
        (resolved_retry retry))).flatten ∧
      ∀ k : Nat,
        (∀ q ∈ tr, (fetchItems invokeO ListBackupsResponse.backups
          (resolved_retry retry) q).length = k) →
        v.length = tr.length * k) ∧
    (∀ (invokeO : Option RetrySetting → GrpcRequest ListBackupOperationsRequest →
        Except Status ListBackupOperationsResponse)
      (fuel : Nat) (req : ListBackupOperationsRequest) (retry : Option RetrySetting)
      (tr : List (GrpcRequest ListBackupOperationsRequest)) (v : List InternalOperation),
      list_backup_operations invokeO fuel req retry = some (tr, Except.ok v) →
      v = (tr.map (fetchItems invokeO ListBackupOperationsResponse.operations
        (resolved_retry retry))).flatten ∧
      ∀ k : Nat,
        (∀ q ∈ tr, (fetchItems invokeO ListBackupOperationsResponse.operations
          (resolved_retry retry) q).length = k) →
        v.length = tr.length * k) ∧
    (∀ (invokeO : Option RetrySetting → GrpcRequest ListDatabaseOperationsRequest →
        Except Status ListDatabaseOperationsResponse)
      (fuel : Nat) (req : ListDatabaseOperationsRequest) (retry : Option RetrySetting)
      (tr : List (GrpcRequest ListDatabaseOperationsRequest)) (v : List InternalOperation),
      list_database_operations invokeO fuel req retry = some (tr, Except.ok v) →
      v = (tr.map (fetchItems invokeO ListDatabaseOperationsResponse.operations
        (resolved_retry retry))).flatten ∧
      ∀ k : Nat,
        (∀ q ∈ tr, (fetchItems invokeO ListDatabaseOperationsResponse.operations
          (resolved_retry retry) q).length = k) →
        v.length = tr.length * k) := by
  refine ⟨?_, ?_, ?_, ?_⟩
  · intro invokeO fuel req retry tr v h
    exact pageLoop_ok_concat_nil invokeO ListDatabasesResponse.databases
      ListDatabasesResponse.next_page_token (fun r t => { r with page_token := t })
      ("parent=" ++ req.parent) (resolved_retry retry) fuel req tr v h
  · intro invokeO fuel req retry tr v h
    exact pageLoop_ok_concat_nil invokeO ListBackupsResponse.backups
      ListBackupsResponse.next_page_token (fun r t => { r with page_token := t })
      ("parent=" ++ req.parent) (resolved_retry retry) fuel req tr v h
  · intro invokeO fuel req retry tr v h
    exact pageLoop_ok_concat_nil invokeO ListBackupOperationsResponse.operations
      ListBackupOperationsResponse.next_page_token (fun r t => { r with page_token := t })
      ("parent=" ++ req.parent) (resolved_retry retry) fuel req tr v h
  · intro invokeO fuel req retry tr v h
    exact pageLoop_ok_concat_nil invokeO ListDatabaseOperationsResponse.operations
      ListDatabaseOperationsResponse.next_page_token (fun r t => { r with page_token := t })
      ("parent=" ++ req.parent) (resolved_retry retry) fuel req tr v h

/-- C1 witness: on the two-page scenario (`[dbA, dbB]` then `[dbC]`) the
aggregate `[dbA, dbB, dbC]` is the concatenation of the traced pages. -/
theorem c1_concatenation_witness :
    [dbA, dbB, dbC] =
      (ldTrace.map (fetchItems ldSrv ListDatabasesResponse.databases
        (resolved_retry none))).flatten :=
  (c1_list_methods_concatenate_pages.1 ldSrv 2 ldReq none ldTrace [dbA, dbB, dbC] rfl).1

/-- C2: for every list method, a failing page fetch makes the method
return exactly the fetch's error, unchanged: the last traced request maps
under the oracle to exactly the returned error, and (generically, at any
loop state) the error is surfaced immediately with the accumulated items
of earlier pages discarded — the outcome is independent of the
accumulator. -/
theorem c2_list_methods_propagate_errors :
    (∀ (invokeO : Option RetrySetting → GrpcRequest ListDatabasesRequest →
        Except Status ListDatabasesResponse)
      (fuel : Nat) (req : ListDatabasesRequest) (retry : Option RetrySetting)
      (tr : List (GrpcRequest ListDatabasesRequest)) (e : Status),
      list_databases invokeO fuel req retry = some (tr, Except.error e) →
      tr.getLast?.map (invokeO (resolved_retry retry)) = some (Except.error e)) ∧
    (∀ (invokeO : Option RetrySetting → GrpcRequest ListBackupsRequest →
        Except Status ListBackupsResponse)
      (fuel : Nat) (req : ListBackupsRequest) (retry : Option RetrySetting)
      (tr : List (GrpcRequest ListBackupsRequest)) (e : Status),
      list_backups invokeO fuel req retry = some (tr, Except.error e) →
      tr.getLast?.map (invokeO (resolved_retry retry)) = some (Except.error e)) ∧
    (∀ (invokeO : Option RetrySetting → GrpcRequest ListBackupOperationsRequest →
        Except Status ListBackupOperationsResponse)
      (fuel : Nat) (req : ListBackupOperationsRequest) (retry : Option RetrySetting)
      (tr : List (GrpcRequest ListBackupOperationsRequest)) (e : Status),
      list_backup_operations invokeO fuel req retry = some (tr, Except.error e) →
      tr.getLast?.map (invokeO (resolved_retry retry)) = some (Except.error e)) ∧
    (∀ (invokeO : Option RetrySetting → GrpcRequest ListDatabaseOperationsRequest →
        Except Status ListDatabaseOperationsResponse)
      (fuel : Nat) (req : ListDatabaseOperationsRequest) (retry : Option RetrySetting)
      (tr : List (GrpcRequest ListDatabaseOperationsRequest)) (e : Status),
      list_database_operations invokeO fuel req retry = some (tr, Except.error e) →
      tr.getLast?.map (invokeO (resolved_retry retry)) = some (Except.error e)) ∧
    (∀ (R P T : Type)
      (invokeO : Option RetrySetting → GrpcRequest R → Except Status P)
      (items : P → List T) (token : P → String) (setTok : R → String → R)
      (routing : String) (retry : Option RetrySetting)
      (fuel : Nat) (req : R) (acc : List T) (e : Status),
      invokeO retry (create_request routing req) = Except.error e →
      pageLoop invokeO items token setTok routing retry (fuel + 1) req acc =
        some ([create_request routing req], Except.error e)) := by
  refine ⟨?_, ?_, ?_, ?_, ?_⟩
  · intro invokeO fuel req retry tr e h
    obtain ⟨q, hlast, hqe⟩ := pageLoop_error_last invokeO ListDatabasesResponse.databases
      ListDatabasesResponse.next_page_token (fun r t => { r with page_token := t })
      ("parent=" ++ req.parent) (resolved_retry retry) fuel req [] tr e h
    rw [hlast]
    simp [hqe]
  · intro invokeO fuel req retry tr e h
    obtain ⟨q, hlast, hqe⟩ := pageLoop_error_last invokeO ListBackupsResponse.backups
      ListBackupsResponse.next_page_token (fun r t => { r with page_token := t })
      ("parent=" ++ req.parent) (resolved_retry retry) fuel req [] tr e h
    rw [hlast]
    simp [hqe]
  · intro invokeO fuel req retry tr e h
    obtain ⟨q, hlast, hqe⟩ := pageLoop_error_last invokeO
      ListBackupOperationsResponse.operations
      ListBackupOperationsResponse.next_page_token (fun r t => { r with page_token := t })
      ("parent=" ++ req.parent) (resolved_retry retry) fuel req [] tr e h
    rw [hlast]
    simp [hqe]
  · intro invokeO fuel req retry tr e h
    obtain ⟨q, hlast, hqe⟩ := pageLoop_error_last invokeO
      ListDatabaseOperationsResponse.operations
      ListDatabaseOperationsResponse.next_page_token (fun r t => { r with page_token := t })
      ("parent=" ++ req.parent) (resolved_retry retry) fuel req [] tr e h
    rw [hlast]
    simp [hqe]
  · intro R P T invokeO items token setTok routing retry fuel req acc e h
    exact pageLoop_error_step invokeO items token setTok routing retry fuel req acc e h

/-- C2 witness: when the second page fails with `stErr`, `list_databases`
surfaces exactly `stErr` as the fetch result of the last traced request. -/
theorem c2_error_witness :
    ldTrace.getLast?.map (ldSrvErr2 (resolved_retry none)) = some (Except.error stErr) :=
  c2_list_methods_propagate_errors.1 ldSrvErr2 2 ldReq none ldTrace stErr rfl

/-- C3: for every list method, a successful page with zero items but a
non-empty next_page_token does not terminate collection: the loop
continues on the request whose page_token equals the returned token, and
any produced trace has as its second element exactly that updated
request; termination is decided solely by token emptiness. -/
theorem c3_empty_page_nonempty_token_continues :
    (∀ (invokeO : Option RetrySetting → GrpcRequest ListDatabasesRequest →
        Except Status ListDatabasesResponse)
      (fuel : Nat) (req : ListDatabasesRequest) (retry : Option RetrySetting)
      (resp : ListDatabasesResponse),
      invokeO (resolved_retry retry) (create_request ("parent=" ++ req.parent) req) =
        Except.ok resp →
      resp.databases = [] → resp.next_page_token ≠ "" →
      (list_databases invokeO (fuel + 1) req retry =
        (pageLoop invokeO ListDatabasesResponse.databases
          ListDatabasesResponse.next_page_token (fun r t => { r with page_token := t })
          ("parent=" ++ req.parent) (resolved_retry retry) fuel
          { req with page_token := resp.next_page_token } []).map
          (fun p => (create_request ("parent=" ++ req.parent) req :: p.1, p.2))) ∧
      ∀ tr res, list_databases invokeO (fuel + 1) req retry = some (tr, res) →
        tr.take 2 = [create_request ("parent=" ++ req.parent) req,
          create_request ("parent=" ++ req.parent)
            { req with page_token := resp.next_page_token }]) ∧
    (∀ (invokeO : Option RetrySetting → GrpcRequest ListBackupsRequest →
        Except Status ListBackupsResponse)
      (fuel : Nat) (req : ListBackupsRequest) (retry : Option RetrySetting)
      (resp : ListBackupsResponse),
      invokeO (resolved_retry retry) (create_request ("parent=" ++ req.parent) req) =
        Except.ok resp →
      resp.backups = [] → resp.next_page_token ≠ "" →
      (list_backups invokeO (fuel + 1) req retry =
        (pageLoop invokeO ListBackupsResponse.backups
          ListBackupsResponse.next_page_token (fun r t => { r with page_token := t })
          ("parent=" ++ req.parent) (resolved_retry retry) fuel
          { req with page_token := resp.next_page_token } []).map
          (fun p => (create_request ("parent=" ++ req.parent) req :: p.1, p.2))) ∧
      ∀ tr res, list_backups invokeO (fuel + 1) req retry = some (tr, res) →
        tr.take 2 = [create_request ("parent=" ++ req.parent) req,
          create_request ("parent=" ++ req.parent)
            { req with page_token := resp.next_page_token }]) ∧
    (∀ (invokeO : Option RetrySetting → GrpcRequest ListBackupOperationsRequest →
        Except Status ListBackupOperationsResponse)
      (fuel : Nat) (req : ListBackupOperationsRequest) (retry : Option RetrySetting)
      (resp : ListBackupOperationsResponse),
      invokeO (resolved_retry retry) (create_request ("parent=" ++ req.parent) req) =
        Except.ok resp →
      resp.operations = [] → resp.next_page_token ≠ "" →
      (list_backup_operations invokeO (fuel + 1) req retry =
        (pageLoop invokeO ListBackupOperationsResponse.operations
          ListBackupOperationsResponse.next_page_token (fun r t => { r with page_token := t })
          ("parent=" ++ req.parent) (resolved_retry retry) fuel
          { req with page_token := resp.next_page_token } []).map
          (fun p => (create_request ("parent=" ++ req.parent) req :: p.1, p.2))) ∧
      ∀ tr res, list_backup_operations invokeO (fuel + 1) req retry = some (tr, res) →
        tr.take 2 = [create_request ("parent=" ++ req.parent) req,
          create_request ("parent=" ++ req.parent)
            { req with page_token := resp.next_page_token }]) ∧
    (∀ (invokeO : Option RetrySetting → GrpcRequest ListDatabaseOperationsRequest →
        Except Status ListDatabaseOperationsResponse)
      (fuel : Nat) (req : ListDatabaseOperationsRequest) (retry : Option RetrySetting)
      (resp : ListDatabaseOperationsResponse),
      invokeO (resolved_retry retry) (create_request ("parent=" ++ req.parent) req) =
        Except.ok resp →
      resp.operations = [] → resp.next_page_token ≠ "" →
      (list_database_operations invokeO (fuel + 1) req retry =
        (pageLoop invokeO ListDatabaseOperationsResponse.operations
          ListDatabaseOperationsResponse.next_page_token (fun r t => { r with page_token := t })
          ("parent=" ++ req.parent) (resolved_retry retry) fuel
          { req with page_token := resp.next_page_token } []).map
          (fun p => (create_request ("parent=" ++ req.parent) req :: p.1, p.2))) ∧
      ∀ tr res, list_database_operations invokeO (fuel + 1) req retry = some (tr, res) →
        tr.take 2 = [create_request ("parent=" ++ req.parent) req,
          create_request ("parent=" ++ req.parent)
            { req with page_token := resp.next_page_token }]) := by
  refine ⟨?_, ?_, ?_, ?_⟩
  · intro invokeO fuel req retry resp h1 h2 h3
    exact pageLoop_zero_items_continues invokeO ListDatabasesResponse.databases
      ListDatabasesResponse.next_page_token (fun r t => { r with page_token := t })
      ("parent=" ++ req.parent) (resolved_retry retry) fuel req resp h1 h2 h3
  · intro invokeO fuel req retry resp h1 h2 h3
    exact pageLoop_zero_items_continues invokeO ListBackupsResponse.backups
      ListBackupsResponse.next_page_token (fun r t => { r with page_token := t })
      ("parent=" ++ req.parent) (resolved_retry retry) fuel req resp h1 h2 h3
  · intro invokeO fuel req retry resp h1 h2 h3
    exact pageLoop_zero_items_continues invokeO ListBackupOperationsResponse.operations
      ListBackupOperationsResponse.next_page_token (fun r t => { r with page_token := t })
      ("parent=" ++ req.parent) (resolved_retry retry) fuel req resp h1 h2 h3
  · intro invokeO fuel req retry resp h1 h2 h3
    exact pageLoop_zero_items_continues invokeO ListDatabaseOperationsResponse.operations
      ListDatabaseOperationsResponse.next_page_token (fun r t => { r with page_token := t })
      ("parent=" ++ req.parent) (resolved_retry retry) fuel req resp h1 h2 h3

/-- C3 witness: against an oracle whose first page is empty with token
`T`, the trace's first two requests are the original request and the
request updated with page_token `T`. -/
theorem c3_continuation_witness :
    ldTrace.take 2 = [create_request ("parent=" ++ ldReq.parent) ldReq,
      create_request ("parent=" ++ ldReq.parent) { ldReq with page_token := "T" }] :=
  (c3_empty_page_nonempty_token_continues.1 ldSrvEmptyFirst 1 ldReq none
    { databases := [], next_page_token := "T" } rfl rfl (by decide)).2
    ldTrace (Except.ok [dbC]) rfl

/-- C8: for every list method, a first page carrying an empty
next_page_token makes the method return exactly that page's items with a
single-element request trace: no second list RPC is issued. -/
theorem c8_single_page_single_call :
    (∀ (invokeO : Option RetrySetting → GrpcRequest ListDatabasesRequest →
        Except Status ListDatabasesResponse)
      (fuel : Nat) (req : ListDatabasesRequest) (retry : Option RetrySetting)
      (resp : ListDatabasesResponse),
      invokeO (resolved_retry retry) (create_request ("parent=" ++ req.parent) req) =
        Except.ok resp →
      resp.next_page_token = "" →
      list_databases invokeO (fuel + 1) req retry =
        some ([create_request ("parent=" ++ req.parent) req], Except.ok resp.databases)) ∧
    (∀ (invokeO : Option RetrySetting → GrpcRequest ListBackupsRequest →
        Except Status ListBackupsResponse)
      (fuel : Nat) (req : ListBackupsRequest) (retry : Option RetrySetting)
      (resp : ListBackupsResponse),
      invokeO (resolved_retry retry) (create_request ("parent=" ++ req.parent) req) =
        Except.ok resp →
      resp.next_page_token = "" →
      list_backups invokeO (fuel + 1) req retry =
        some ([create_request ("parent=" ++ req.parent) req], Except.ok resp.backups)) ∧
    (∀ (invokeO : Option RetrySetting → GrpcRequest ListBackupOperationsRequest →
        Except Status ListBackupOperationsResponse)
      (fuel : Nat) (req : ListBackupOperationsRequest) (retry : Option RetrySetting)
      (resp : ListBackupOperationsResponse),
      invokeO (resolved_retry retry) (create_request ("parent=" ++ req.parent) req) =
        Except.ok resp →
      resp.next_page_token = "" →
      list_backup_operations invokeO (fuel + 1) req retry =
        some ([create_request ("parent=" ++ req.parent) req], Except.ok resp.operations)) ∧
    (∀ (invokeO : Option RetrySetting → GrpcRequest ListDatabaseOperationsRequest →
        Except Status ListDatabaseOperationsResponse)
      (fuel : Nat) (req : ListDatabaseOperationsRequest) (retry : Option RetrySetting)
      (resp : ListDatabaseOperationsResponse),
      invokeO (resolved_retry retry) (create_request ("parent=" ++ req.parent) req) =
        Except.ok resp →
      resp.next_page_token = "" →
      list_database_operations invokeO (fuel + 1) req retry =
        some ([create_request ("parent=" ++ req.parent) req], Except.ok resp.operations)) := by
  refine ⟨?_, ?_, ?_, ?_⟩
  · intro invokeO fuel req retry resp h1 h2
    exact pageLoop_last_page invokeO ListDatabasesResponse.databases
      ListDatabasesResponse.next_page_token (fun r t => { r with page_token := t })
      ("parent=" ++ req.parent) (resolved_retry retry) fuel req [] resp h1 h2
  · intro invokeO fuel req retry resp h1 h2
    exact pageLoop_last_page invokeO ListBackupsResponse.backups
      ListBackupsResponse.next_page_token (fun r t => { r with page_token := t })
      ("parent=" ++ req.parent) (resolved_retry retry) fuel req [] resp h1 h2
  · intro invokeO fuel req retry resp h1 h2
    exact pageLoop_last_page invokeO ListBackupOperationsResponse.operations
      ListBackupOperationsResponse.next_page_token (fun r t => { r with page_token := t })
      ("parent=" ++ req.parent) (resolved_retry retry) fuel req [] resp h1 h2
  · intro invokeO fuel req retry resp h1 h2
    exact pageLoop_last_page invokeO ListDatabaseOperationsResponse.operations
      ListDatabaseOperationsResponse.next_page_token (fun r t => { r with page_token := t })
      ("parent=" ++ req.parent) (resolved_retry retry) fuel req [] resp h1 h2

/-- C8 witness: a single-page oracle yields exactly the page's items and a
one-element trace. -/
theorem c8_single_page_witness :
    list_databases ldSrvSingle 1 ldReq none =
      some ([create_request ("parent=" ++ ldReq.parent) ldReq], Except.ok [dbA]) :=
  c8_single_page_single_call.1 ldSrvSingle 0 ldReq none
    { databases := [dbA], next_page_token := "" } rfl rfl

/-- C4: for every list method, the pagination loop terminates exactly
when the response chain reaches an empty next_page_token or an error:
under fuel `n` the method yields a result iff the chain stops within `n`
fetches (so the claim's precondition guarantees termination), and on any
successful return the last fetched page's next_page_token is empty — the
only terminal success condition. -/
theorem c4_pagination_termination :
    ((∀ (invokeO : Option RetrySetting → GrpcRequest ListDatabasesRequest →
        Except Status ListDatabasesResponse)
      (fuel : Nat) (req : ListDatabasesRequest) (retry : Option RetrySetting),
      (list_databases invokeO fuel req retry).isSome =
        stopsWithin
          (fun r => invokeO (resolved_retry retry)
            (create_request ("parent=" ++ req.parent) r))
          ListDatabasesResponse.next_page_token
          (fun r t => { r with page_token := t }) fuel req) ∧
    (∀ (invokeO : Option RetrySetting → GrpcRequest ListDatabasesRequest →
        Except Status ListDatabasesResponse)
      (fuel : Nat) (req : ListDatabasesRequest) (retry : Option RetrySetting)
      (tr : List (GrpcRequest ListDatabasesRequest)) (v : List Database),
      list_databases invokeO fuel req retry = some (tr, Except.ok v) →
      tr.getLast?.bind
        (fetchToken invokeO ListDatabasesResponse.next_page_token (resolved_retry retry)) =
        some "")) ∧
    ((∀ (invokeO : Option RetrySetting → GrpcRequest ListBackupsRequest →
        Except Status ListBackupsResponse)
      (fuel : Nat) (req : ListBackupsRequest) (retry : Option RetrySetting),
      (list_backups invokeO fuel req retry).isSome =
        stopsWithin
          (fun r => invokeO (resolved_retry retry)
            (create_request ("parent=" ++ req.parent) r))
          ListBackupsResponse.next_page_token
          (fun r t => { r with page_token := t }) fuel req) ∧
    (∀ (invokeO : Option RetrySetting → GrpcRequest ListBackupsRequest →
        Except Status ListBackupsResponse)
      (fuel : Nat) (req : ListBackupsRequest) (retry : Option RetrySetting)
      (tr : List (GrpcRequest ListBackupsRequest)) (v : List Backup),
      list_backups invokeO fuel req retry = some (tr, Except.ok v) →
      tr.getLast?.bind
        (fetchToken invokeO ListBackupsResponse.next_page_token (resolved_retry retry)) =
        some "")) ∧
    ((∀ (invokeO : Option RetrySetting → GrpcRequest ListBackupOperationsRequest →
        Except Status ListBackupOperationsResponse)
      (fuel : Nat) (req : ListBackupOperationsRequest) (retry : Option RetrySetting),
      (list_backup_operations invokeO fuel req retry).isSome =
        stopsWithin
          (fun r => invokeO (resolved_retry retry)
            (create_request ("parent=" ++ req.parent) r))
          ListBackupOperationsResponse.next_page_token
          (fun r t => { r with page_token := t }) fuel req) ∧
    (∀ (invokeO : Option RetrySetting → GrpcRequest ListBackupOperationsRequest →
        Except Status ListBackupOperationsResponse)
      (fuel : Nat) (req : ListBackupOperationsRequest) (retry : Option RetrySetting)
      (tr : List (GrpcRequest ListBackupOperationsRequest)) (v : List InternalOperation),
      list_backup_operations invokeO fuel req retry = some (tr, Except.ok v) →
      tr.getLast?.bind
        (fetchToken invokeO ListBackupOperationsResponse.next_page_token
          (resolved_retry retry)) = some "")) ∧
    ((∀ (invokeO : Option RetrySetting → GrpcRequest ListDatabaseOperationsRequest →
        Except Status ListDatabaseOperationsResponse)
      (fuel : Nat) (req : ListDatabaseOperationsRequest) (retry : Option RetrySetting),
      (list_database_operations invokeO fuel req retry).isSome =
        stopsWithin
          (fun r => invokeO (resolved_retry retry)
            (create_request ("parent=" ++ req.parent) r))
          ListDatabaseOperationsResponse.next_page_token
          (fun r t => { r with page_token := t }) fuel req) ∧
    (∀ (invokeO : Option RetrySetting → GrpcRequest ListDatabaseOperationsRequest →
        Except Status ListDatabaseOperationsResponse)
      (fuel : Nat) (req : ListDatabaseOperationsRequest) (retry : Option RetrySetting)
      (tr : List (GrpcRequest ListDatabaseOperationsRequest)) (v : List InternalOperation),
      list_database_operations invokeO fuel req retry = some (tr, Except.ok v) →
      tr.getLast?.bind
        (fetchToken invokeO ListDatabaseOperationsResponse.next_page_token
          (resolved_retry retry)) = some "")) := by
  refine ⟨⟨?_, ?_⟩, ⟨?_, ?_⟩, ⟨?_, ?_⟩, ⟨?_, ?_⟩⟩
  · intro invokeO fuel req retry
    exact pageLoop_isSome_eq_stopsWithin invokeO ListDatabasesResponse.databases
      ListDatabasesResponse.next_page_token (fun r t => { r with page_token := t })
      ("parent=" ++ req.parent) (resolved_retry retry) fuel req []
  · intro invokeO fuel req retry tr v h
    obtain ⟨q, resp, hlast, hok, htok⟩ := pageLoop_ok_last invokeO
      ListDatabasesResponse.databases ListDatabasesResponse.next_page_token
      (fun r t => { r with page_token := t }) ("parent=" ++ req.parent)
      (resolved_retry retry) fuel req [] tr v h
    rw [hlast]
    simp [fetchToken, hok, htok]
  · intro invokeO fuel req retry
    exact pageLoop_isSome_eq_stopsWithin invokeO ListBackupsResponse.backups
      ListBackupsResponse.next_page_token (fun r t => { r with page_token := t })
      ("parent=" ++ req.parent) (resolved_retry retry) fuel req []
  · intro invokeO fuel req retry tr v h
    obtain ⟨q, resp, hlast, hok, htok⟩ := pageLoop_ok_last invokeO
      ListBackupsResponse.backups ListBackupsResponse.next_page_token
      (fun r t => { r with page_token := t }) ("parent=" ++ req.parent)
      (resolved_retry retry) fuel req [] tr v h
    rw [hlast]
    simp [fetchToken, hok, htok]
  · intro invokeO fuel req retry
    exact pageLoop_isSome_eq_stopsWithin invokeO ListBackupOperationsResponse.operations
      ListBackupOperationsResponse.next_page_token (fun r t => { r with page_token := t })
      ("parent=" ++ req.parent) (resolved_retry retry) fuel req []
  · intro invokeO fuel req retry tr v h
    obtain ⟨q, resp, hlast, hok, htok⟩ := pageLoop_ok_last invokeO
      ListBackupOperationsResponse.operations ListBackupOperationsResponse.next_page_token
      (fun r t => { r with page_token := t }) ("parent=" ++ req.parent)
      (resolved_retry retry) fuel req [] tr v h
    rw [hlast]
    simp [fetchToken, hok, htok]
  · intro invokeO fuel req retry
    exact pageLoop_isSome_eq_stopsWithin invokeO ListDatabaseOperationsResponse.operations
      ListDatabaseOperationsResponse.next_page_token (fun r t => { r with page_token := t })
      ("parent=" ++ req.parent) (resolved_retry retry) fuel req []
  · intro invokeO fuel req retry tr v h
    obtain ⟨q, resp, hlast, hok, htok⟩ := pageLoop_ok_last invokeO
      ListDatabaseOperationsResponse.operations ListDatabaseOperationsResponse.next_page_token
      (fun r t => { r with page_token := t }) ("parent=" ++ req.parent)
      (resolved_retry retry) fuel req [] tr v h
    rw [hlast]
    simp [fetchToken, hok, htok]

/-- C4 witness: on the two-page scenario the successful collection's last
traced request fetched a page with an empty token. -/
theorem c4_termination_witness :
    ldTrace.getLast?.bind
      (fetchToken ldSrv ListDatabasesResponse.next_page_token (resolved_retry none)) =
      some "" :=
  c4_pagination_termination.1.2 ldSrv 2 ldReq none ldTrace [dbA, dbB, dbC] rfl

/-- C10: in every list method, only the page_token field of the request
changes between successive page fetches (each next traced request is the
previous payload with page_token overwritten by the previous response's
next_page_token), every other request field is sent unchanged on every
page, and the routing string computed from the original request's parent
is attached to every traced request. -/
theorem c10_page_token_only_mutation :
    (∀ (invokeO : Option RetrySetting → GrpcRequest ListDatabasesRequest →
        Except Status ListDatabasesResponse)
      (fuel : Nat) (req : ListDatabasesRequest) (retry : Option RetrySetting)
      (tr : List (GrpcRequest ListDatabasesRequest))
      (res : Except Status (List Database)),
      list_databases invokeO fuel req retry = some (tr, res) →
      (∀ q ∈ tr, q.routing = "parent=" ++ req.parent ∧ q.payload.parent = req.parent ∧
        q.payload.page_size = req.page_size) ∧
      tr.Chain' (fun a b => ∃ resp, invokeO (resolved_retry retry) a = Except.ok resp ∧
        resp.next_page_token ≠ "" ∧
        b = create_request ("parent=" ++ req.parent)
          { a.payload with page_token := resp.next_page_token })) ∧
    (∀ (invokeO : Option RetrySetting → GrpcRequest ListBackupsRequest →
        Except Status ListBackupsResponse)
      (fuel : Nat) (req : ListBackupsRequest) (retry : Option RetrySetting)
      (tr : List (GrpcRequest ListBackupsRequest))
      (res : Except Status (List Backup)),
      list_backups invokeO fuel req retry = some (tr, res) →
      (∀ q ∈ tr, q.routing = "parent=" ++ req.parent ∧ q.payload.parent = req.parent ∧
        q.payload.filter = req.filter ∧ q.payload.page_size = req.page_size) ∧
      tr.Chain' (fun a b => ∃ resp, invokeO (resolved_retry retry) a = Except.ok resp ∧
        resp.next_page_token ≠ "" ∧
        b = create_request ("parent=" ++ req.parent)
          { a.payload with page_token := resp.next_page_token })) ∧
    (∀ (invokeO : Option RetrySetting → GrpcRequest ListBackupOperationsRequest →
        Except Status ListBackupOperationsResponse)
      (fuel : Nat) (req : ListBackupOperationsRequest) (retry : Option RetrySetting)
      (tr : List (GrpcRequest ListBackupOperationsRequest))
      (res : Except Status (List InternalOperation)),
      list_backup_operations invokeO fuel req retry = some (tr, res) →
      (∀ q ∈ tr, q.routing = "parent=" ++ req.parent ∧ q.payload.parent = req.parent ∧
        q.payload.filter = req.filter ∧ q.payload.page_size = req.page_size) ∧
      tr.Chain' (fun a b => ∃ resp, invokeO (resolved_retry retry) a = Except.ok resp ∧
        resp.next_page_token ≠ "" ∧
        b = create_request ("parent=" ++ req.parent)
          { a.payload with page_token := resp.next_page_token })) ∧
    (∀ (invokeO : Option RetrySetting → GrpcRequest ListDatabaseOperationsRequest →
        Except Status ListDatabaseOperationsResponse)
      (fuel : Nat) (req : ListDatabaseOperationsRequest) (retry : Option RetrySetting)
      (tr : List (GrpcRequest ListDatabaseOperationsRequest))
      (res : Except Status (List InternalOperation)),
      list_database_operations invokeO fuel req retry = some (tr, res) →
      (∀ q ∈ tr, q.routing = "parent=" ++ req.parent ∧ q.payload.parent = req.parent ∧
        q.payload.filter = req.filter ∧ q.payload.page_size = req.page_size) ∧
      tr.Chain' (fun a b => ∃ resp, invokeO (resolved_retry retry) a = Except.ok resp ∧
        resp.next_page_token ≠ "" ∧
        b = create_request ("parent=" ++ req.parent)
          { a.payload with page_token := resp.next_page_token })) := by
  refine ⟨?_, ?_, ?_, ?_⟩
  · intro invokeO fuel req retry tr res h
    constructor
    · intro q hq
      obtain ⟨hr, hreach⟩ := pageLoop_trace_shape invokeO ListDatabasesResponse.databases
        ListDatabasesResponse.next_page_token (fun r t => { r with page_token := t })
        ("parent=" ++ req.parent) (resolved_retry retry) fuel req [] tr res h q hq
      obtain ⟨hp, hs⟩ := tokReach_listDatabases req q.payload hreach
      exact ⟨hr, hp, hs⟩
    · exact pageLoop_chain invokeO ListDatabasesResponse.databases
        ListDatabasesResponse.next_page_token (fun r t => { r with page_token := t })
        ("parent=" ++ req.parent) (resolved_retry retry) fuel req [] tr res h
  · intro invokeO fuel req retry tr res h
    constructor
    · intro q hq
      obtain ⟨hr, hreach⟩ := pageLoop_trace_shape invokeO ListBackupsResponse.backups
        ListBackupsResponse.next_page_token (fun r t => { r with page_token := t })
        ("parent=" ++ req.parent) (resolved_retry retry) fuel req [] tr res h q hq
      obtain ⟨hp, hf, hs⟩ := tokReach_listBackups req q.payload hreach
      exact ⟨hr, hp, hf, hs⟩
    · exact pageLoop_chain invokeO ListBackupsResponse.backups
        ListBackupsResponse.next_page_token (fun r t => { r with page_token := t })
        ("parent=" ++ req.parent) (resolved_retry retry) fuel req [] tr res h
  · intro invokeO fuel req retry tr res h
    constructor
    · intro q hq
      obtain ⟨hr, hreach⟩ := pageLoop_trace_shape invokeO
        ListBackupOperationsResponse.operations
        ListBackupOperationsResponse.next_page_token (fun r t => { r with page_token := t })
        ("parent=" ++ req.parent) (resolved_retry retry) fuel req [] tr res h q hq
      obtain ⟨hp, hf, hs⟩ := tokReach_listBackupOperations req q.payload hreach
      exact ⟨hr, hp, hf, hs⟩
    · exact pageLoop_chain invokeO ListBackupOperationsResponse.operations
        ListBackupOperationsResponse.next_page_token (fun r t => { r with page_token := t })
        ("parent=" ++ req.parent) (resolved_retry retry) fuel req [] tr res h
  · intro invokeO fuel req retry tr res h
    constructor
    · intro q hq
      obtain ⟨hr, hreach⟩ := pageLoop_trace_shape invokeO
        ListDatabaseOperationsResponse.operations
        ListDatabaseOperationsResponse.next_page_token (fun r t => { r with page_token := t })
        ("parent=" ++ req.parent) (resolved_retry retry) fuel req [] tr res h q hq
      obtain ⟨hp, hf, hs⟩ := tokReach_listDatabaseOperations req q.payload hreach
      exact ⟨hr, hp, hf, hs⟩
    · exact pageLoop_chain invokeO ListDatabaseOperationsResponse.operations
        ListDatabaseOperationsResponse.next_page_token (fun r t => { r with page_token := t })
        ("parent=" ++ req.parent) (resolved_retry retry) fuel req [] tr res h

/-- C10 witness: on the two-page scenario the first traced request keeps
the original routing string, parent and page_size. -/
theorem c10_frame_witness :
    (create_request ("parent=" ++ ldReq.parent) ldReq).routing = "parent=" ++ ldReq.parent ∧
    (create_request ("parent=" ++ ldReq.parent) ldReq).payload.parent = ldReq.parent ∧
    (create_request ("parent=" ++ ldReq.parent) ldReq).payload.page_size = ldReq.page_size :=
  (c10_page_token_only_mutation.1 ldSrv 2 ldReq none ldTrace
    (Except.ok [dbA, dbB, dbC]) rfl).1
    (create_request ("parent=" ++ ldReq.parent) ldReq) (by simp [ldTrace])

/-- C5: for every operation-starting method (create_database,
update_database_ddl, create_backup, restore_database), a successful call
returns an Operation handle holding the shared lro_client and exactly the
descriptor the service returned, unmodified; both result shapes occur:
typed payloads (Operation Database, Operation Backup) and the
completion-only Operation Unit. -/
theorem c5_operation_handles :
    (∀ (self : DatabaseAdminClient)
      (invokeO : Option RetrySetting → GrpcRequest CreateDatabaseRequest →
        Except Status InternalOperation)
      (req : CreateDatabaseRequest) (retry : Option RetrySetting) (d : InternalOperation),
      invokeO (resolved_retry retry) (create_request ("parent=" ++ req.parent) req) =
        Except.ok d →
      create_database self invokeO req retry =
        (Except.ok { lro_client := self.lro_client, inner := d },
          [create_request ("parent=" ++ req.parent) req])) ∧
    (∀ (self : DatabaseAdminClient)
      (invokeO : Option RetrySetting → GrpcRequest UpdateDatabaseDdlRequest →
        Except Status InternalOperation)
      (req : UpdateDatabaseDdlRequest) (retry : Option RetrySetting) (d : InternalOperation),
      invokeO (resolved_retry retry) (create_request ("database=" ++ req.database) req) =
        Except.ok d →
      update_database_ddl self invokeO req retry =
        (Except.ok { lro_client := self.lro_client, inner := d },
          [create_request ("database=" ++ req.database) req])) ∧
    (∀ (self : DatabaseAdminClient)
      (invokeO : Option RetrySetting → GrpcRequest CreateBackupRequest →
        Except Status InternalOperation)
      (req : CreateBackupRequest) (retry : Option RetrySetting) (d : InternalOperation),
      invokeO (resolved_retry retry) (create_request ("parent=" ++ req.parent) req) =
        Except.ok d →
      create_backup self invokeO req retry =
        (Except.ok { lro_client := self.lro_client, inner := d },
          [create_request ("parent=" ++ req.parent) req])) ∧
    (∀ (self : DatabaseAdminClient)
      (invokeO : Option RetrySetting → GrpcRequest RestoreDatabaseRequest →
        Except Status InternalOperation)
      (req : RestoreDatabaseRequest) (retry : Option RetrySetting) (d : InternalOperation),
      invokeO (resolved_retry retry) (create_request ("parent=" ++ req.parent) req) =
        Except.ok d →
      restore_database self invokeO req retry =
        (Except.ok { lro_client := self.lro_client, inner := d },
          [create_request ("parent=" ++ req.parent) req])) := by
  refine ⟨?_, ?_, ?_, ?_⟩
  · intro self invokeO req retry d h
    simp only [resolved_retry] at h
    simp [create_database, h, Operation.new]
    rfl
  · intro self invokeO req retry d h
    simp only [resolved_retry] at h
    simp [update_database_ddl, h, Operation.new]
    rfl
  · intro self invokeO req retry d h
    simp only [resolved_retry] at h
    simp [create_backup, h, Operation.new]
    rfl
  · intro self invokeO req retry d h
    simp only [resolved_retry] at h
    simp [restore_database, h, Operation.new]
    rfl

/-- C5 witness: starting an operation with descriptor `opA` yields the
handle pairing the shared client with exactly `opA`. -/
theorem c5_operation_witness :
    create_database client0 cdSrv cdReq none =
      (Except.ok { lro_client := client0.lro_client, inner := opA },
        [create_request ("parent=" ++ cdReq.parent) cdReq]) :=
  c5_operation_handles.1 client0 cdSrv cdReq none opA rfl

/-- C6: for every exposed method, a call with retry = none behaves exactly
like the same call with retry = some default_retry_setting: the omitted
policy is resolved to the process-wide default before the first attempt. -/
theorem c6_default_retry :
    (∀ (invokeO : Option RetrySetting → GrpcRequest ListDatabasesRequest →
        Except Status ListDatabasesResponse) (fuel : Nat) (req : ListDatabasesRequest),
      list_databases invokeO fuel req none =
        list_databases invokeO fuel req (some default_retry_setting)) ∧
    (∀ (self : DatabaseAdminClient)
      (invokeO : Option RetrySetting → GrpcRequest CreateDatabaseRequest →
        Except Status InternalOperation) (req : CreateDatabaseRequest),
      create_database self invokeO req none =
        create_database self invokeO req (some default_retry_setting)) ∧
    (∀ (invokeO : Option RetrySetting → GrpcRequest GetDatabaseRequest →
        Except Status Database) (req : GetDatabaseRequest),
      get_database invokeO req none =
        get_database invokeO req (some default_retry_setting)) ∧
    (∀ (self : DatabaseAdminClient)
      (invokeO : Option RetrySetting → GrpcRequest UpdateDatabaseDdlRequest →
        Except Status InternalOperation) (req : UpdateDatabaseDdlRequest),
      update_database_ddl self invokeO req none =
        update_database_ddl self invokeO req (some default_retry_setting)) ∧
    (∀ (invokeO : Option RetrySetting → GrpcRequest DropDatabaseRequest →
        Except Status Unit) (req : DropDatabaseRequest),
      drop_database invokeO req none =
        drop_database invokeO req (some default_retry_setting)) ∧
    (∀ (invokeO : Option RetrySetting → GrpcRequest GetDatabaseDdlRequest →
        Except Status GetDatabaseDdlResponse) (req : GetDatabaseDdlRequest),
      get_database_ddl invokeO req none =
        get_database_ddl invokeO req (some default_retry_setting)) ∧
    (∀ (invokeO : Option RetrySetting → GrpcRequest SetIamPolicyRequest →
        Except Status Policy) (req : SetIamPolicyRequest),
      set_iam_policy invokeO req none =
        set_iam_policy invokeO req (some default_retry_setting)) ∧
    (∀ (invokeO : Option RetrySetting → GrpcRequest GetIamPolicyRequest →
        Except Status Policy) (req : GetIamPolicyRequest),
      get_iam_policy invokeO req none =
        get_iam_policy invokeO req (some default_retry_setting)) ∧
    (∀ (invokeO : Option RetrySetting → GrpcRequest TestIamPermissionsRequest →
        Except Status TestIamPermissionsResponse) (req : TestIamPermissionsRequest),
      test_iam_permissions invokeO req none =
        test_iam_permissions invokeO req (some default_retry_setting)) ∧
    (∀ (self : DatabaseAdminClient)
      (invokeO : Option RetrySetting → GrpcRequest CreateBackupRequest →
        Except Status InternalOperation) (req : CreateBackupRequest),
      create_backup self invokeO req none =
        create_backup self invokeO req (some default_retry_setting)) ∧
    (∀ (invokeO : Option RetrySetting → GrpcRequest GetBackupRequest →
        Except Status Backup) (req : GetBackupRequest),
      get_backup invokeO req none =
        get_backup invokeO req (some default_retry_setting)) ∧
    (∀ (invokeO : Option RetrySetting → GrpcRequest UpdateBackupRequest →
        Except Status Backup) (req : UpdateBackupRequest),
      update_backup invokeO req none =
        update_backup invokeO req (some default_retry_setting)) ∧
    (∀ (invokeO : Option RetrySetting → GrpcRequest DeleteBackupRequest →
        Except Status Unit) (req : DeleteBackupRequest),
      delete_backup invokeO req none =
        delete_backup invokeO req (some default_retry_setting)) ∧
    (∀ (invokeO : Option RetrySetting → GrpcRequest ListBackupsRequest →
        Except Status ListBackupsResponse) (fuel : Nat) (req : ListBackupsRequest),
      list_backups invokeO fuel req none =
        list_backups invokeO fuel req (some default_retry_setting)) ∧
    (∀ (self : DatabaseAdminClient)
      (invokeO : Option RetrySetting → GrpcRequest RestoreDatabaseRequest →
        Except Status InternalOperation) (req : RestoreDatabaseRequest),
      restore_database self invokeO req none =
        restore_database self invokeO req (some default_retry_setting)) ∧
    (∀ (invokeO : Option RetrySetting → GrpcRequest ListBackupOperationsRequest →
        Except Status ListBackupOperationsResponse) (fuel : Nat)
      (req : ListBackupOperationsRequest),
      list_backup_operations invokeO fuel req none =
        list_backup_operations invokeO fuel req (some default_retry_setting)) ∧
    (∀ (invokeO : Option RetrySetting → GrpcRequest ListDatabaseOperationsRequest →
        Except Status ListDatabaseOperationsResponse) (fuel : Nat)
      (req : ListDatabaseOperationsRequest),
      list_database_operations invokeO fuel req none =
        list_database_operations invokeO fuel req (some default_retry_setting)) := by
  refine ⟨?_, ?_, ?_, ?_, ?_, ?_, ?_, ?_, ?_, ?_, ?_, ?_, ?_, ?_, ?_, ?_, ?_⟩ <;>
    intros <;> rfl

/-- C7: for every exposed method and every retry attempt, the decorated
request delivered to the transport is rebuilt fresh inside the attempt
closure as create_request of the method's routing string (one of
"parent=", "name=", "database=", "resource=", "backup.name=" followed by
the routing field) applied to the caller's request, and the instrumented
driver computes the same final result as the plain retrying driver on the
method's attempt closure. -/
theorem c7_per_attempt_decoration :
    (∀ (R A : Type) (setting : RetrySetting)
      (transport : Nat → GrpcRequest R → Except Status A)
      (parent : String) (req : R) (budget i : Nat),
      (∀ q ∈ (invokeLog setting transport
          (fun _ => create_request ("parent=" ++ parent) req) i budget).2,
        q = create_request ("parent=" ++ parent) req) ∧
      (invokeLog setting transport
        (fun _ => create_request ("parent=" ++ parent) req) i budget).1 =
        invoke_result setting (parent_routed_action parent req transport) i budget) ∧
    (∀ (R A : Type) (setting : RetrySetting)
      (transport : Nat → GrpcRequest R → Except Status A)
      (name : String) (req : R) (budget i : Nat),
      (∀ q ∈ (invokeLog setting transport
          (fun _ => create_request ("name=" ++ name) req) i budget).2,
        q = create_request ("name=" ++ name) req) ∧
      (invokeLog setting transport
        (fun _ => create_request ("name=" ++ name) req) i budget).1 =
        invoke_result setting (name_routed_action name req transport) i budget) ∧
    (∀ (R A : Type) (setting : RetrySetting)
      (transport : Nat → GrpcRequest R → Except Status A)
      (database : String) (req : R) (budget i : Nat),
      (∀ q ∈ (invokeLog setting transport
          (fun _ => create_request ("database=" ++ database) req) i budget).2,
        q = create_request ("database=" ++ database) req) ∧
      (invokeLog setting transport
        (fun _ => create_request ("database=" ++ database) req) i budget).1 =
        invoke_result setting (database_routed_action database req transport) i budget) ∧
    (∀ (R A : Type) (setting : RetrySetting)
      (transport : Nat → GrpcRequest R → Except Status A)
      (resource : String) (req : R) (budget i : Nat),
      (∀ q ∈ (invokeLog setting transport
          (fun _ => create_request ("resource=" ++ resource) req) i budget).2,
        q = create_request ("resource=" ++ resource) req) ∧
      (invokeLog setting transport
        (fun _ => create_request ("resource=" ++ resource) req) i budget).1 =
        invoke_result setting (resource_routed_action resource req transport) i budget) ∧
    (∀ (R A : Type) (setting : RetrySetting)
      (transport : Nat → GrpcRequest R → Except Status A)
      (name : String) (req : R) (budget i : Nat),
      (∀ q ∈ (invokeLog setting transport
          (fun _ => create_request ("backup.name=" ++ name) req) i budget).2,
        q = create_request ("backup.name=" ++ name) req) ∧
      (invokeLog setting transport
        (fun _ => create_request ("backup.name=" ++ name) req) i budget).1 =
        invoke_result setting (backup_name_routed_action name req transport) i budget) := by
  refine ⟨?_, ?_, ?_, ?_, ?_⟩ <;>
    intro R A setting transport s req budget i <;>
    exact ⟨invokeLog_mem_const setting transport _ budget i,
      invokeLog_fst_eq setting transport _ budget i⟩

/-- C7 witness: with a transport that fails retryably once, both logged
attempts of `get_database` receive the freshly decorated name-routed
request, and the instrumented result agrees with the plain driver. -/
theorem c7_decoration_witness :
    create_request ("name=" ++ gdReq.name) gdReq =
      create_request ("name=" ++ gdReq.name) gdReq ∧
    (invokeLog default_retry_setting gdTransport
      (fun _ => create_request ("name=" ++ gdReq.name) gdReq) 0 3).1 =
      invoke_result default_retry_setting
        (name_routed_action gdReq.name gdReq gdTransport) 0 3 :=
  ⟨(c7_per_attempt_decoration.2.1 GetDatabaseRequest Database default_retry_setting
      gdTransport gdReq.name gdReq 3 0).1
      (create_request ("name=" ++ gdReq.name) gdReq) (by decide),
    (c7_per_attempt_decoration.2.1 GetDatabaseRequest Database default_retry_setting
      gdTransport gdReq.name gdReq 3 0).2⟩

/-- C9: update_backup requires req.backup to be present: when req.backup
is none the routing-key extraction panics (modelled as the undefined
outcome `none`) before any RPC attempt — the outcome is independent of
the oracle and retry setting — and the embedding is defined exactly when
req.backup is some. -/
theorem c9_update_backup_unwrap_precondition :
    (∀ (invokeO : Option RetrySetting → GrpcRequest UpdateBackupRequest →
        Except Status Backup)
      (req : UpdateBackupRequest) (retry : Option RetrySetting),
      req.backup = none → update_backup invokeO req retry = none) ∧
    (∀ (invokeO : Option RetrySetting → GrpcRequest UpdateBackupRequest →
        Except Status Backup)
      (req : UpdateBackupRequest) (retry : Option RetrySetting),
      (update_backup invokeO req retry).isSome ↔ req.backup.isSome) ∧
    (∀ (o1 o2 : Option RetrySetting → GrpcRequest UpdateBackupRequest →
        Except Status Backup)
      (req : UpdateBackupRequest) (r1 r2 : Option RetrySetting),
      req.backup = none → update_backup o1 req r1 = update_backup o2 req r2) := by
  refine ⟨?_, ?_, ?_⟩
  · intro invokeO req retry h
    simp [update_backup, h]
  · intro invokeO req retry
    cases hb : req.backup <;> simp [update_backup, hb]
  · intro o1 o2 req r1 r2 h
    simp [update_backup, h]

/-- C9 witness: a request with no backup field yields the undefined
(panicking) outcome regardless of the oracle. -/
theorem c9_unwrap_witness :
    update_backup (fun _ _ => Except.ok bkA) { backup := none } none = none :=
  c9_update_backup_unwrap_precondition.1 (fun _ _ => Except.ok bkA)
    { backup := none } none rfl

end SpannerAdmin
